import Mathlib

set_option maxHeartbeats 1000000

/-
Verification of the attention-pipeline orchestrator
`MultiHeadedAttention::operator()` from
src/turbo_transformers/layers/multi_headed_attention.cpp.

The orchestrator is embedded shallowly: a Tensor is a shape (list of
dimension sizes), a flat row-major data function, and a device context;
the process-wide scratch arena (the static core::TempTensor slots) and
the caller-supplied tensors live in one state record Mem, and every
kernel call of the C++ body becomes an update of the cell its
destination pointer names.  The run returns the final state together
with an optional error (none = normal return); a thrown TT_ENFORCE or
TT_THROW returns the state at the throw.  The numeric kernels are
external to the repository (only declared here), so they are modelled
from the specification, section 6; the scalar-level functions the spec
leaves to the external library (std::sqrt, the softmax of one row, the
layer normalization of one row) are abstract parameters in Ext.  A
ghost list of kernel invocations (the trace) records, for each call,
the transpose flags and the alpha/beta/scale scalars that the
orchestrator passes.  The global mutex (line 37) serializes calls and
is not observable in single-call claims; EnforceShapeAndType (line 57)
only logs and is a no-op here.
-/

/-- Device context: device type plus device id (core::Tensor device identity). -/
structure DevCtx where
  devType : Nat
  devId : Nat
  deriving DecidableEq

/-- Modelled from the spec: is_same_device_ctx compares two device contexts by equality. -/
def is_same_device_ctx (a b : DevCtx) : Bool := a == b

/-- A tensor: shape, flat row-major contents, device context. -/
structure Tensor (α : Type) where
  shape : List Nat
  data : Nat → α
  dev : DevCtx

/-- Product of a list of dimension sizes. -/
def listProd (l : List Nat) : Nat := l.foldr (fun a b => a * b) 1

def Tensor.n_dim {α : Type} (t : Tensor α) : Nat := t.shape.length

/-- shape(i) of core::Tensor. -/
def Tensor.dim {α : Type} (t : Tensor α) (i : Nat) : Nat := t.shape.getD i 0

def Tensor.numel {α : Type} (t : Tensor α) : Nat := listProd t.shape

/-- Reshape<float>(shape, devtype, devid): sets the shape and device without
moving the flat contents (capacity management is below this model). -/
def Tensor.reshape {α : Type} (t : Tensor α) (s : List Nat) (d : DevCtx) : Tensor α :=
  { t with shape := s, dev := d }

/-- operator[] on the leading axis: a view of slice i sharing the flat buffer. -/
def Tensor.slice {α : Type} (t : Tensor α) (i : Nat) : Tensor α :=
  { shape := t.shape.tail, data := fun f => t.data (i * listProd t.shape.tail + f),
    dev := t.dev }

/-- External scalar-level functions of the numeric library, abstract here:
std::sqrt, masked softmax of one row of scores (given the scale factor and
the mask row), and layer normalization of one row (given gamma, beta, eps). -/
structure ExtFns (α : Type) where
  sqrt : α → α
  softmaxRow : α → List α → List α → List α
  layerNormRow : List α → List α → α → List α → List α

/-- One recorded kernel invocation: the transpose flags and the scalar
arguments the orchestrator passes (ghost instrumentation). -/
inductive KCall (α : Type) where
  | matMul (transA transB : Bool) (alpha beta0 : α)
  | batchMatMul (transA transB : Bool) (alpha beta0 : α)
  | applyMaskAndSoftmax (scale : α)
  | layerNorm
  | addBiasTransposeForScore
  | splitAddBiasTransposeForScore
  | transposeForScore
  | addBias
  | addInputBias
  | copy
  deriving DecidableEq

/-- Error taxonomy of the spec, section 7, for the throws of the orchestrator. -/
inductive TTError where
  | deviceMismatch (msg : String)
  | shapeError (msg : String)
  | invalidArgument (msg : String)
  deriving DecidableEq

/-- Summation of f l * g l over l < k. -/
def dotRange {α : Type} [Field α] (k : Nat) (f g : Nat → α) : α :=
  match k with
  | 0 => 0
  | Nat.succ k2 => dotRange k2 f g + f k2 * g k2

/-- Modelled from the spec: MatMul(A, transposeA, B, transposeB, alpha, outp, beta)
computes outp = alpha * op(A) * op(B) + beta * outp, the leading axes of A
flattened into rows, row-major flat layout. -/
def MatMul {α : Type} [Field α] (a : Tensor α) (transA : Bool) (b : Tensor α)
    (transB : Bool) (alpha : α) (outp : Tensor α) (beta0 : α) : Tensor α :=
  let lastA := a.dim (a.n_dim - 1)
  let leadA := a.numel / lastA
  let lastB := b.dim (b.n_dim - 1)
  let leadB := b.numel / lastB
  let k := if transA then leadA else lastA
  let n := if transB then leadB else lastB
  let nd : Nat → α := fun f =>
    let i := f / n
    let j := f % n
    let opA : Nat → α := fun l => if transA then a.data (l * lastA + i) else a.data (i * lastA + l)
    let opB : Nat → α := fun l => if transB then b.data (j * lastB + l) else b.data (l * lastB + j)
    alpha * dotRange k opA opB + beta0 * outp.data f
  { outp with data := nd }

/-- Modelled from the spec: BatchMatMul, as MatMul batched over all axes before
the last two. -/
def BatchMatMul {α : Type} [Field α] (a : Tensor α) (transA : Bool) (b : Tensor α)
    (transB : Bool) (alpha : α) (outp : Tensor α) (beta0 : α) : Tensor α :=
  let a1 := a.dim (a.n_dim - 1)
  let a2 := a.dim (a.n_dim - 2)
  let b1 := b.dim (b.n_dim - 1)
  let b2 := b.dim (b.n_dim - 2)
  let m := if transA then a1 else a2
  let k := if transA then a2 else a1
  let n := if transB then b2 else b1
  let nd : Nat → α := fun f =>
    let bi := f / (m * n)
    let r := f % (m * n) / n
    let c := f % n
    let opA : Nat → α := fun l =>
      if transA then a.data (bi * (a2 * a1) + (l * a1 + r)) else a.data (bi * (a2 * a1) + (r * a1 + l))
    let opB : Nat → α := fun l =>
      if transB then b.data (bi * (b2 * b1) + (c * b1 + l)) else b.data (bi * (b2 * b1) + (l * b1 + c))
    alpha * dotRange k opA opB + beta0 * outp.data f
  { outp with data := nd }

/-- Modelled from the spec: LayerNorm(gamma, beta, tensor, eps), in-place
normalization over the last axis, one row at a time through the external
row function. -/
def LayerNorm {α : Type} [Field α] (E : ExtFns α) (gamma beta2 : Tensor α)
    (t : Tensor α) (eps : α) : Tensor α :=
  let h := t.dim (t.n_dim - 1)
  let nd : Nat → α := fun f =>
    let rs := f / h * h
    let row := (List.range h).map (fun j => t.data (rs + j))
    let g := (List.range h).map (fun j => gamma.data j)
    let b := (List.range h).map (fun j => beta2.data j)
    (E.layerNormRow g b eps row).getD (f % h) (t.data f)
  { t with data := nd }

/-- Modelled from the spec: ApplyMaskAndSoftmax(scores, mask, scale), in-place
masked softmax over the last axis of scores, the mask of shape
[batch, keySeqLen] broadcast over heads and query positions
(the source comment: mask.unsqueeze(1), shape [B, 1, 1, T_values]). -/
def ApplyMaskAndSoftmax {α : Type} [Field α] (E : ExtFns α) (score mask : Tensor α)
    (scale : α) : Tensor α :=
  let kl := score.dim (score.n_dim - 1)
  let ql := score.dim (score.n_dim - 2)
  let nh := score.dim (score.n_dim - 3)
  let tm := mask.dim (mask.n_dim - 1)
  let nd : Nat → α := fun f =>
    let b := f / (kl * ql * nh)
    let rs := f / kl * kl
    let row := (List.range kl).map (fun j => score.data (rs + j))
    let mrow := (List.range kl).map (fun j => mask.data (b * tm + j))
    (E.softmaxRow scale row mrow).getD (f % kl) (score.data f)
  { score with data := nd }

/-- Modelled from the spec: AddBiasTransposeForScore(x, bias, outp): x of shape
[batch, seq, numHeads, headSize] gets the bias (length hidden) added and is
transposed to head-major outp of shape [batch, numHeads, seq, headSize]. -/
def AddBiasTransposeForScore {α : Type} [Field α] (x bias outp : Tensor α) : Tensor α :=
  let hs := outp.dim 3
  let s := outp.dim 2
  let nh := outp.dim 1
  let nd : Nat → α := fun f =>
    let h := f % hs
    let si := f / hs % s
    let n := f / (hs * s) % nh
    let b := f / (hs * s * nh)
    x.data (((b * s + si) * nh + n) * hs + h) + bias.data (n * hs + h)
  { outp with data := nd }

/-- Modelled from the spec: SplitAddBiasTransposeForScore(outp, x, bias): the
fused projection buffer x, holding the row-major [batch, seq, 3 * hidden]
result that MatMul wrote (a row is the query, key, value projections of one
position concatenated, matching the column order of the fused QKV weight),
is split into thirds, the bias (length 3 * hidden) added, and each third
transposed to head-major, into outp of shape
[3, batch, numHeads, seq, headSize]. -/
def SplitAddBiasTransposeForScore {α : Type} [Field α] (outp x bias : Tensor α) : Tensor α :=
  let hs := outp.dim 4
  let s := outp.dim 3
  let nh := outp.dim 2
  let bz := outp.dim 1
  let hidden := nh * hs
  let nd : Nat → α := fun f =>
    let h := f % hs
    let si := f / hs % s
    let n := f / (hs * s) % nh
    let bi := f / (hs * s * nh) % bz
    let t := f / (hs * s * nh * bz)
    x.data ((bi * s + si) * (3 * hidden) + (t * hidden + (n * hs + h))) +
      bias.data (t * hidden + (n * hs + h))
  { outp with data := nd }

/-- Modelled from the spec: TransposeForScore(outp, in): the head-major context
[batch, numHeads, seq, headSize] merged back to outp of shape
[batch, seq, hidden]. -/
def TransposeForScore {α : Type} [Field α] (outp input : Tensor α) : Tensor α :=
  let nh := input.dim 1
  let s := input.dim 2
  let hs := input.dim 3
  let nd : Nat → α := fun f =>
    let h := f % hs
    let n := f / hs % nh
    let si := f / (hs * nh) % s
    let b := f / (hs * nh * s)
    input.data (((b * nh + n) * s + si) * hs + h)
  { outp with data := nd }

/-- Modelled from the spec: AddBias(bias, outp): elementwise bias add over the
last axis, in place. -/
def AddBias {α : Type} [Field α] (bias outp : Tensor α) : Tensor α :=
  let h := outp.dim (outp.n_dim - 1)
  { outp with data := fun f => outp.data f + bias.data (f % h) }

/-- Modelled from the spec: AddInputBias(in1, in2, bias, outp): elementwise
outp = in1 + in2 + bias, the bias broadcast over the last axis. -/
def AddInputBias {α : Type} [Field α] (input1 input2 bias outp : Tensor α) : Tensor α :=
  let h := outp.dim (outp.n_dim - 1)
  { outp with data := fun f => input1.data f + input2.data f + bias.data (f % h) }

/-- Modelled from the spec: core::Copy duplicates the contents of src into dst. -/
def Copy {α : Type} (src dst : Tensor α) : Tensor α := { dst with data := src.data }

/-- The immutable weight bundle of a MultiHeadedAttention instance. -/
structure MHAParams (α : Type) where
  num_attention_heads : Nat
  q_weight : Tensor α
  k_weight : Tensor α
  v_weight : Tensor α
  q_bias : Tensor α
  k_bias : Tensor α
  v_bias : Tensor α
  qkv_weight : Tensor α
  qkv_bias : Tensor α
  dense_weight : Tensor α
  dense_bias : Tensor α
  layernorm_gamma : Tensor α
  layernorm_beta : Tensor α

/-- The state a call runs on: the four caller tensors, the caller output
tensor, every static scratch-arena slot of the source file, and the ghost
trace of kernel invocations. -/
structure Mem (α : Type) where
  key_tensor : Tensor α
  value_tensor : Tensor α
  query_tensor : Tensor α
  attention_mask : Tensor α
  output : Tensor α
  q_out1 : Tensor α
  v_out1 : Tensor α
  k_out1 : Tensor α
  q_out2 : Tensor α
  v_out2 : Tensor α
  k_out2 : Tensor α
  qkv_out1 : Tensor α
  qkv_out2 : Tensor α
  att_score : Tensor α
  context_layer : Tensor α
  self_attr_out : Tensor α
  trace : List (KCall α)

/-- The epsilon 1e-6 of the layer-norm calls (lines 108 and 153). -/
def layerNormEps {α : Type} [Field α] : α := 1 / 1000000

/-- Lines 78 to 140: the context (cross-attention) branch.  Projects key,
value, query through the separate weights, then bias-adds and transposes to
head-major; returns the updated state and the q, k, v pointers (which point
into the q_out2, k_out2, v_out2 arena slots).  Successive values of one
arena slot are named _a, _b, _c. -/
def contextBranch {α : Type} [Field α] (E : ExtFns α) (P : MHAParams α)
    (batch_size query_seq_length key_seq_length hidden_size size_per_head : Nat)
    (devctx : DevCtx) (pre_layernorm : Bool) (m : Mem α) :
    Mem α × Tensor α × Tensor α × Tensor α :=
  let q_out1_a := m.q_out1.reshape [batch_size, query_seq_length, hidden_size] devctx
  let v_out1_a := m.v_out1.reshape [batch_size, key_seq_length, hidden_size] devctx
  let k_out1_a := m.k_out1.reshape [batch_size, key_seq_length, hidden_size] devctx
  let layernormed := LayerNorm E P.layernorm_gamma P.layernorm_beta
    (Copy m.query_tensor
      (m.q_out2.reshape [batch_size, query_seq_length, hidden_size] devctx)) layerNormEps
  let q_out1_b :=
    if pre_layernorm then MatMul layernormed false P.q_weight false 1 q_out1_a 0
    else MatMul m.query_tensor false P.q_weight false 1 q_out1_a 0
  let k_out1_b := MatMul m.key_tensor false P.k_weight false 1 k_out1_a 0
  let v_out1_b := MatMul m.value_tensor false P.v_weight false 1 v_out1_a 0
  let q_out1_c := q_out1_b.reshape
    [batch_size, query_seq_length, P.num_attention_heads, size_per_head] devctx
  let v_out1_c := v_out1_b.reshape
    [batch_size, key_seq_length, P.num_attention_heads, size_per_head] devctx
  let k_out1_c := k_out1_b.reshape
    [batch_size, key_seq_length, P.num_attention_heads, size_per_head] devctx
  let q_out2_a := (if pre_layernorm then layernormed else m.q_out2).reshape
    [batch_size, P.num_attention_heads, query_seq_length, size_per_head] devctx
  let v_out2_a := m.v_out2.reshape
    [batch_size, P.num_attention_heads, key_seq_length, size_per_head] devctx
  let k_out2_a := m.k_out2.reshape
    [batch_size, P.num_attention_heads, key_seq_length, size_per_head] devctx
  let q_out2_b := AddBiasTransposeForScore q_out1_c P.q_bias q_out2_a
  let v_out2_b := AddBiasTransposeForScore v_out1_c P.v_bias v_out2_a
  let k_out2_b := AddBiasTransposeForScore k_out1_c P.k_bias k_out2_a
  let tr := m.trace ++
    (if pre_layernorm then [KCall.copy, KCall.layerNorm, KCall.matMul false false 1 0]
     else [KCall.matMul false false 1 0]) ++
    [KCall.matMul false false 1 0, KCall.matMul false false 1 0,
      KCall.addBiasTransposeForScore, KCall.addBiasTransposeForScore,
      KCall.addBiasTransposeForScore]
  ({ m with q_out1 := q_out1_c, v_out1 := v_out1_c, k_out1 := k_out1_c,
            q_out2 := q_out2_b, v_out2 := v_out2_b, k_out2 := k_out2_b, trace := tr },
    q_out2_b, k_out2_b, v_out2_b)

/-- Lines 141 to 169: the self-attention branch.  Projects the (optionally
layer-normalized) query through the fused QKV weight, splits, bias-adds and
transposes in one kernel, and slices the head-major q, k, v views out of the
leading axis of qkv_out2. -/
def selfBranch {α : Type} [Field α] (E : ExtFns α) (P : MHAParams α)
    (batch_size query_seq_length hidden_size size_per_head : Nat)
    (devctx : DevCtx) (pre_layernorm : Bool) (m : Mem α) :
    Mem α × Tensor α × Tensor α × Tensor α :=
  let qkv_out1_a := m.qkv_out1.reshape [3, batch_size, query_seq_length, hidden_size] devctx
  let layernormed_query := LayerNorm E P.layernorm_gamma P.layernorm_beta
    (Copy m.query_tensor
      (Tensor.mk [batch_size, query_seq_length, hidden_size] (fun _ => 0) devctx))
    layerNormEps
  let qkv_out1_b :=
    if pre_layernorm then MatMul layernormed_query false P.qkv_weight false 1 qkv_out1_a 0
    else MatMul m.query_tensor false P.qkv_weight false 1 qkv_out1_a 0
  let qkv_out2_a := m.qkv_out2.reshape
    [3, batch_size, P.num_attention_heads, query_seq_length, size_per_head] devctx
  let qkv_out2_b := SplitAddBiasTransposeForScore qkv_out2_a qkv_out1_b P.qkv_bias
  let tr := m.trace ++
    (if pre_layernorm then [KCall.copy, KCall.layerNorm, KCall.matMul false false 1 0]
     else [KCall.matMul false false 1 0]) ++
    [KCall.splitAddBiasTransposeForScore]
  ({ m with qkv_out1 := qkv_out1_b, qkv_out2 := qkv_out2_b, trace := tr },
    qkv_out2_b.slice 0, qkv_out2_b.slice 1, qkv_out2_b.slice 2)

/-- Lines 174 to 217: score, masked softmax, weighted sum, unshape, output
projection, bias or bias-plus-residual. -/
def commonTail {α : Type} [Field α] (E : ExtFns α) (P : MHAParams α)
    (batch_size query_seq_length key_seq_length hidden_size size_per_head : Nat)
    (devctx : DevCtx) (post_add : Bool)
    (q_ptr k_ptr v_ptr : Tensor α) (m : Mem α) : Mem α :=
  let att_score_a := m.att_score.reshape
    [batch_size, P.num_attention_heads, query_seq_length, key_seq_length] devctx
  let scaler : α := 1 / E.sqrt (size_per_head : α)
  let att_score_b := BatchMatMul q_ptr false k_ptr true scaler att_score_a 0
  let att_score_c := ApplyMaskAndSoftmax E att_score_b m.attention_mask 1
  let context_layer_a := m.context_layer.reshape
    [batch_size, P.num_attention_heads, query_seq_length, size_per_head] devctx
  let context_layer_b := BatchMatMul att_score_c false v_ptr false 1 context_layer_a 0
  let self_attr_out_a := m.self_attr_out.reshape
    [batch_size, query_seq_length, P.num_attention_heads * size_per_head] devctx
  let self_attr_out_b := TransposeForScore self_attr_out_a context_layer_b
  let output_a := m.output.reshape [batch_size, query_seq_length, hidden_size] devctx
  let output_b := MatMul self_attr_out_b false P.dense_weight false 1 output_a 0
  let output_c :=
    if post_add = false then AddBias P.dense_bias output_b
    else AddInputBias output_b m.query_tensor P.dense_bias output_b
  let tr := m.trace ++
    [KCall.batchMatMul false true scaler 0, KCall.applyMaskAndSoftmax 1,
      KCall.batchMatMul false false 1 0, KCall.transposeForScore,
      KCall.matMul false false 1 0,
      if post_add = false then KCall.addBias else KCall.addInputBias]
  { m with att_score := att_score_c, context_layer := context_layer_b,
           self_attr_out := self_attr_out_b, output := output_c, trace := tr }

/-- Lines 30 to 218: MultiHeadedAttention::operator().  Validation, the
key-sequence-length derivation (with the first variant dispatch), the
projection-stage variant dispatch, and the common tail.  Returns the final
state and, when a TT_ENFORCE or TT_THROW fired, the error together with the
state at the throw. -/
def multiHeadedAttention {α : Type} [Field α] (E : ExtFns α) (P : MHAParams α)
    (attn_type : String) (pre_layernorm post_add : Bool) (m0 : Mem α) :
    Mem α × Option TTError :=
  let m := { m0 with trace := ([] : List (KCall α)) }
  if !(is_same_device_ctx m.key_tensor.dev m.attention_mask.dev) then
    (m, some (TTError.deviceMismatch
      "The key_tensor and attention_mask should have the same device type and device id."))
  else if m.key_tensor.n_dim != 3 then
    (m, some (TTError.shapeError
      "The key_tensor should be a matrix with shape [batch_size, key_seq_len, hidden_size]."))
  else if m.value_tensor.n_dim != 3 then
    (m, some (TTError.shapeError
      "The value_tensor should be a matrix with shape [batch_size, key_seq_len, hidden_size]."))
  else if m.query_tensor.n_dim != 3 then
    (m, some (TTError.shapeError
      "The query_tensors should be a matrix with shape [batch_size, query_seq_len, hidden_size]."))
  else if m.key_tensor.dim 0 != m.value_tensor.dim 0 then
    (m, some (TTError.shapeError
      "The key_tensor and value_tensor should have the same hidden_size"))
  else
    let batch_size := m.query_tensor.dim 0
    let query_seq_length := m.query_tensor.dim 1
    match (if attn_type == "context" then Except.ok (m.key_tensor.dim 1)
           else if attn_type == "self" then Except.ok query_seq_length
           else Except.error (TTError.invalidArgument "attn_type should be context or self.") :
           Except TTError Nat) with
    | Except.error e => (m, some e)
    | Except.ok key_seq_length =>
      let hidden_size := m.query_tensor.dim 2
      let size_per_head := hidden_size / P.num_attention_heads
      let devctx := m.query_tensor.dev
      match (if attn_type == "context" then
               Except.ok (contextBranch E P batch_size query_seq_length key_seq_length
                 hidden_size size_per_head devctx pre_layernorm m)
             else if attn_type == "self" then
               Except.ok (selfBranch E P batch_size query_seq_length
                 hidden_size size_per_head devctx pre_layernorm m)
             else Except.error (TTError.invalidArgument
               (attn_type ++ " is not support in MultiHeadedAttention\n")) :
             Except TTError (Mem α × Tensor α × Tensor α × Tensor α)) with
      | Except.error e => (m, some e)
      | Except.ok (m2, q_ptr, k_ptr, v_ptr) =>
        (commonTail E P batch_size query_seq_length key_seq_length hidden_size
          size_per_head devctx post_add q_ptr k_ptr v_ptr m2, none)

/-- Pointwise agreement of the flat contents below index n. -/
def EqBelow {α : Type} (n : Nat) (t1 t2 : Tensor α) : Prop :=
  ∀ f, f < n → t1.data f = t2.data f

/-- The successful context-variant run: the validated body of
multiHeadedAttention at attn_type = context (derivations of lines 58 to 75,
the context branch, the common tail). -/
def runContext {α : Type} [Field α] (E : ExtFns α) (P : MHAParams α)
    (pre_layernorm post_add : Bool) (m : Mem α) : Mem α :=
  let batch_size := m.query_tensor.dim 0
  let query_seq_length := m.query_tensor.dim 1
  let key_seq_length := m.key_tensor.dim 1
  let hidden_size := m.query_tensor.dim 2
  let size_per_head := hidden_size / P.num_attention_heads
  let devctx := m.query_tensor.dev
  match contextBranch E P batch_size query_seq_length key_seq_length hidden_size
      size_per_head devctx pre_layernorm { m with trace := ([] : List (KCall α)) } with
  | (m2, q_ptr, k_ptr, v_ptr) =>
    commonTail E P batch_size query_seq_length key_seq_length hidden_size
      size_per_head devctx post_add q_ptr k_ptr v_ptr m2

/-- The successful self-variant run: the validated body of
multiHeadedAttention at attn_type = self (key_seq_length = query_seq_length). -/
def runSelf {α : Type} [Field α] (E : ExtFns α) (P : MHAParams α)
    (pre_layernorm post_add : Bool) (m : Mem α) : Mem α :=
  let batch_size := m.query_tensor.dim 0
  let query_seq_length := m.query_tensor.dim 1
  let key_seq_length := query_seq_length
  let hidden_size := m.query_tensor.dim 2
  let size_per_head := hidden_size / P.num_attention_heads
  let devctx := m.query_tensor.dev
  match selfBranch E P batch_size query_seq_length hidden_size
      size_per_head devctx pre_layernorm { m with trace := ([] : List (KCall α)) } with
  | (m2, q_ptr, k_ptr, v_ptr) =>
    commonTail E P batch_size query_seq_length key_seq_length hidden_size
      size_per_head devctx post_add q_ptr k_ptr v_ptr m2

/-- The five validation checks of lines 38 to 55, as one Boolean. -/
def validOperands {α : Type} (m : Mem α) : Bool :=
  is_same_device_ctx m.key_tensor.dev m.attention_mask.dev &&
    m.key_tensor.n_dim == 3 && m.value_tensor.n_dim == 3 && m.query_tensor.n_dim == 3 &&
    m.key_tensor.dim 0 == m.value_tensor.dim 0

instance : Fact (Nat.Prime 5) := ⟨by norm_num⟩

/-- Concrete external functions over the field ZMod 5 (where arithmetic
reduces definitionally) for witnesses: sqrt is the identity, the softmax of a
row is the constant-one row (the true softmax of any length-one row), layer
normalization shifts a row by one. -/
def E0 : ExtFns (ZMod 5) :=
  { sqrt := fun x => x,
    softmaxRow := fun _ row _ => row.map (fun _ => 1),
    layerNormRow := fun _ _ _ row => row.map (fun v => v + 1) }

def dev0 : DevCtx := { devType := 0, devId := 0 }

def dev1 : DevCtx := { devType := 1, devId := 0 }

/-- A [1,1,1] tensor holding ones. -/
def tOnes : Tensor (ZMod 5) := { shape := [1, 1, 1], data := fun _ => 1, dev := dev0 }

/-- A [1,1,1] tensor holding twos. -/
def tTwos : Tensor (ZMod 5) := { shape := [1, 1, 1], data := fun _ => 2, dev := dev0 }

def mask0 : Tensor (ZMod 5) := { shape := [1, 1], data := fun _ => 0, dev := dev0 }

def w11 : Tensor (ZMod 5) := { shape := [1, 1], data := fun _ => 1, dev := dev0 }

def w13 : Tensor (ZMod 5) := { shape := [1, 3], data := fun _ => 1, dev := dev0 }

def bias1 : Tensor (ZMod 5) := { shape := [1], data := fun _ => 0, dev := dev0 }

def bias3 : Tensor (ZMod 5) := { shape := [3], data := fun _ => 0, dev := dev0 }

def gamma1 : Tensor (ZMod 5) := { shape := [1], data := fun _ => 1, dev := dev0 }

/-- An uninitialized arena slot or caller output tensor. -/
def scratch0 : Tensor (ZMod 5) := { shape := [], data := fun _ => 0, dev := dev0 }

/-- Witness weights: one head, all projection weights 1 x 1 holding one, the
fused QKV weight 1 x 3 holding ones (so it agrees with the separate ones),
zero biases. -/
def P0 : MHAParams (ZMod 5) :=
  { num_attention_heads := 1,
    q_weight := w11, k_weight := w11, v_weight := w11,
    q_bias := bias1, k_bias := bias1, v_bias := bias1,
    qkv_weight := w13, qkv_bias := bias3,
    dense_weight := w11, dense_bias := bias1,
    layernorm_gamma := gamma1, layernorm_beta := bias1 }

/-- A starting state from the four caller tensors, all arena slots fresh. -/
def mkMem (k v q msk : Tensor (ZMod 5)) : Mem (ZMod 5) :=
  { key_tensor := k, value_tensor := v, query_tensor := q, attention_mask := msk,
    output := scratch0,
    q_out1 := scratch0, v_out1 := scratch0, k_out1 := scratch0,
    q_out2 := scratch0, v_out2 := scratch0, k_out2 := scratch0,
    qkv_out1 := scratch0, qkv_out2 := scratch0,
    att_score := scratch0, context_layer := scratch0, self_attr_out := scratch0,
    trace := [] }

/-- The base valid witness state: key = value = query = ones. -/
def m0 : Mem (ZMod 5) := mkMem tOnes tOnes tOnes mask0

/-- A rank-2 tensor (fails the rank-3 validation). -/
def tRank2 : Tensor (ZMod 5) := { shape := [1, 1], data := fun _ => 1, dev := dev0 }

/-- A [1,1,1] tensor of twos living on a different device context. -/
def tTwosDev1 : Tensor (ZMod 5) := { shape := [1, 1, 1], data := fun _ => 2, dev := dev1 }

/-- A mask on a different device context than the key. -/
def maskDev1 : Tensor (ZMod 5) := { shape := [1, 1], data := fun _ => 0, dev := dev1 }

/-- A [1,1,2] tensor (hidden size 2). -/
def tHid2 : Tensor (ZMod 5) := { shape := [1, 1, 2], data := fun _ => 1, dev := dev0 }

/-- A [1,1,3] tensor (hidden size 3). -/
def tHid3 : Tensor (ZMod 5) := { shape := [1, 1, 3], data := fun _ => 1, dev := dev0 }


theorem run_context_eq {α : Type} [Field α] (E : ExtFns α) (P : MHAParams α)
    (pre_layernorm post_add : Bool) (m : Mem α) (hval : validOperands m = true) :
    multiHeadedAttention E P "context" pre_layernorm post_add m =
      (runContext E P pre_layernorm post_add m, none) := by
  simp only [validOperands, Bool.and_eq_true, beq_iff_eq] at hval
  obtain ⟨⟨⟨⟨hdev, hk⟩, hv⟩, hq⟩, hkv⟩ := hval
  simp only [multiHeadedAttention, runContext, hdev, hk, hv, hq, hkv, bne_self_eq_false,
    Bool.not_true, Bool.false_eq_true, if_false, String.reduceBEq, if_true]

theorem run_self_eq {α : Type} [Field α] (E : ExtFns α) (P : MHAParams α)
    (pre_layernorm post_add : Bool) (m : Mem α) (hval : validOperands m = true) :
    multiHeadedAttention E P "self" pre_layernorm post_add m =
      (runSelf E P pre_layernorm post_add m, none) := by
  simp only [validOperands, Bool.and_eq_true, beq_iff_eq] at hval
  obtain ⟨⟨⟨⟨hdev, hk⟩, hv⟩, hq⟩, hkv⟩ := hval
  simp only [multiHeadedAttention, runSelf, hdev, hk, hv, hq, hkv, bne_self_eq_false,
    Bool.not_true, Bool.false_eq_true, if_false, String.reduceBEq, if_true]

theorem ok_variant {α : Type} [Field α] (E : ExtFns α) (P : MHAParams α)
    (attn_type : String) (pre_layernorm post_add : Bool) (m : Mem α)
    (h : (multiHeadedAttention E P attn_type pre_layernorm post_add m).2 = none) :
    validOperands m = true ∧ (attn_type = "context" ∨ attn_type = "self") := by
  unfold multiHeadedAttention at h
  cases hdev : is_same_device_ctx m.key_tensor.dev m.attention_mask.dev with
  | false => simp [hdev] at h
  | true =>
    cases hk : m.key_tensor.n_dim == 3 with
    | false => simp [hdev, bne, hk] at h
    | true =>
      cases hv : m.value_tensor.n_dim == 3 with
      | false => simp [hdev, bne, hk, hv] at h
      | true =>
        cases hq : m.query_tensor.n_dim == 3 with
        | false => simp [hdev, bne, hk, hv, hq] at h
        | true =>
          cases hkv : m.key_tensor.dim 0 == m.value_tensor.dim 0 with
          | false => simp [hdev, bne, hk, hv, hq, hkv] at h
          | true =>
            refine ⟨by simp [validOperands, hdev, hk, hv, hq, hkv], ?_⟩
            cases hc : attn_type == "context" with
            | true => exact Or.inl (by simpa using hc)
            | false =>
              cases hs : attn_type == "self" with
              | true => exact Or.inr (by simpa using hs)
              | false => simp [hdev, bne, hk, hv, hq, hkv, hc, hs] at h

theorem runContext_output_shape {α : Type} [Field α] (E : ExtFns α) (P : MHAParams α)
    (pre_layernorm post_add : Bool) (m : Mem α) :
    (runContext E P pre_layernorm post_add m).output.shape =
      [m.query_tensor.dim 0, m.query_tensor.dim 1, m.query_tensor.dim 2] := by
  cases pre_layernorm <;> cases post_add <;> rfl

theorem runSelf_output_shape {α : Type} [Field α] (E : ExtFns α) (P : MHAParams α)
    (pre_layernorm post_add : Bool) (m : Mem α) :
    (runSelf E P pre_layernorm post_add m).output.shape =
      [m.query_tensor.dim 0, m.query_tensor.dim 1, m.query_tensor.dim 2] := by
  cases pre_layernorm <;> cases post_add <;> rfl

theorem runContext_inputs {α : Type} [Field α] (E : ExtFns α) (P : MHAParams α)
    (pre_layernorm post_add : Bool) (m : Mem α) :
    (runContext E P pre_layernorm post_add m).key_tensor = m.key_tensor ∧
      (runContext E P pre_layernorm post_add m).value_tensor = m.value_tensor ∧
      (runContext E P pre_layernorm post_add m).query_tensor = m.query_tensor ∧
      (runContext E P pre_layernorm post_add m).attention_mask = m.attention_mask := by
  cases pre_layernorm <;> cases post_add <;> exact ⟨rfl, rfl, rfl, rfl⟩

theorem runSelf_inputs {α : Type} [Field α] (E : ExtFns α) (P : MHAParams α)
    (pre_layernorm post_add : Bool) (m : Mem α) :
    (runSelf E P pre_layernorm post_add m).key_tensor = m.key_tensor ∧
      (runSelf E P pre_layernorm post_add m).value_tensor = m.value_tensor ∧
      (runSelf E P pre_layernorm post_add m).query_tensor = m.query_tensor ∧
      (runSelf E P pre_layernorm post_add m).attention_mask = m.attention_mask := by
  cases pre_layernorm <;> cases post_add <;> exact ⟨rfl, rfl, rfl, rfl⟩

theorem runContext_att_score_shape {α : Type} [Field α] (E : ExtFns α) (P : MHAParams α)
    (pre_layernorm post_add : Bool) (m : Mem α) :
    (runContext E P pre_layernorm post_add m).att_score.shape =
      [m.query_tensor.dim 0, P.num_attention_heads, m.query_tensor.dim 1,
        m.key_tensor.dim 1] := by
  cases pre_layernorm <;> cases post_add <;> rfl

theorem runSelf_att_score_shape {α : Type} [Field α] (E : ExtFns α) (P : MHAParams α)
    (pre_layernorm post_add : Bool) (m : Mem α) :
    (runSelf E P pre_layernorm post_add m).att_score.shape =
      [m.query_tensor.dim 0, P.num_attention_heads, m.query_tensor.dim 1,
        m.query_tensor.dim 1] := by
  cases pre_layernorm <;> cases post_add <;> rfl

theorem err_state {α : Type} [Field α] (E : ExtFns α) (P : MHAParams α)
    (attn_type : String) (pre_layernorm post_add : Bool) (m : Mem α)
    (h : (multiHeadedAttention E P attn_type pre_layernorm post_add m).2 ≠ none) :
    (multiHeadedAttention E P attn_type pre_layernorm post_add m).1 =
      { m with trace := ([] : List (KCall α)) } := by
  unfold multiHeadedAttention at h ⊢
  cases hdev : is_same_device_ctx m.key_tensor.dev m.attention_mask.dev with
  | false => simp [hdev]
  | true =>
    cases hk : m.key_tensor.n_dim == 3 with
    | false => simp [hdev, bne, hk]
    | true =>
      cases hv : m.value_tensor.n_dim == 3 with
      | false => simp [hdev, bne, hk, hv]
      | true =>
        cases hq : m.query_tensor.n_dim == 3 with
        | false => simp [hdev, bne, hk, hv, hq]
        | true =>
          cases hkv : m.key_tensor.dim 0 == m.value_tensor.dim 0 with
          | false => simp [hdev, bne, hk, hv, hq, hkv]
          | true =>
            cases hc : attn_type == "context" with
            | true => simp [hdev, bne, hk, hv, hq, hkv, hc] at h
            | false =>
              cases hs : attn_type == "self" with
              | true => simp [hdev, bne, hk, hv, hq, hkv, hc, hs] at h
              | false => simp [hdev, bne, hk, hv, hq, hkv, hc, hs]

/-- Claim C1: for every call that returns normally, the caller-supplied output
tensor has been reshaped to [batch, querySeqLen, hidden] drawn from the query
tensor, for both variants and all flag settings. -/
theorem c1_output_shape {α : Type} [Field α] (E : ExtFns α) (P : MHAParams α)
    (attn_type : String) (pre_layernorm post_add : Bool) (m : Mem α)
    (h : (multiHeadedAttention E P attn_type pre_layernorm post_add m).2 = none) :
    (multiHeadedAttention E P attn_type pre_layernorm post_add m).1.output.shape =
      [m.query_tensor.dim 0, m.query_tensor.dim 1, m.query_tensor.dim 2] := by
  obtain ⟨hval, hvar⟩ := ok_variant E P attn_type pre_layernorm post_add m h
  rcases hvar with rfl | rfl
  · rw [run_context_eq E P pre_layernorm post_add m hval]
    exact runContext_output_shape E P pre_layernorm post_add m
  · rw [run_self_eq E P pre_layernorm post_add m hval]
    exact runSelf_output_shape E P pre_layernorm post_add m

theorem c1_output_shape_witness :
    (multiHeadedAttention E0 P0 "context" true true m0).1.output.shape = [1, 1, 1] :=
  c1_output_shape E0 P0 "context" true true m0 rfl

/-- Claim C7: the four input tensors key, value, query, mask are unchanged when
the call returns, for every variant and flag setting, whether or not the call
fails; the preLayerNorm path normalizes a scratch copy, never the caller
query. -/
theorem c7_inputs_unchanged {α : Type} [Field α] (E : ExtFns α) (P : MHAParams α)
    (attn_type : String) (pre_layernorm post_add : Bool) (m : Mem α) :
    (multiHeadedAttention E P attn_type pre_layernorm post_add m).1.key_tensor =
        m.key_tensor ∧
      (multiHeadedAttention E P attn_type pre_layernorm post_add m).1.value_tensor =
        m.value_tensor ∧
      (multiHeadedAttention E P attn_type pre_layernorm post_add m).1.query_tensor =
        m.query_tensor ∧
      (multiHeadedAttention E P attn_type pre_layernorm post_add m).1.attention_mask =
        m.attention_mask := by
  by_cases h : (multiHeadedAttention E P attn_type pre_layernorm post_add m).2 = none
  · obtain ⟨hval, hvar⟩ := ok_variant E P attn_type pre_layernorm post_add m h
    rcases hvar with rfl | rfl
    · rw [run_context_eq E P pre_layernorm post_add m hval]
      exact runContext_inputs E P pre_layernorm post_add m
    · rw [run_self_eq E P pre_layernorm post_add m hval]
      exact runSelf_inputs E P pre_layernorm post_add m
  · rw [err_state E P attn_type pre_layernorm post_add m h]
    exact ⟨rfl, rfl, rfl, rfl⟩

/-- Claim C9: for every call that returns normally, the last axis of the score
tensor (the derived key sequence length) is key.shape(1) for the context
variant and query.shape(1) for the self variant. -/
theorem c9_key_seq_length {α : Type} [Field α] (E : ExtFns α) (P : MHAParams α)
    (attn_type : String) (pre_layernorm post_add : Bool) (m : Mem α)
    (h : (multiHeadedAttention E P attn_type pre_layernorm post_add m).2 = none) :
    (multiHeadedAttention E P attn_type pre_layernorm post_add m).1.att_score.shape =
      [m.query_tensor.dim 0, P.num_attention_heads, m.query_tensor.dim 1,
        if attn_type = "context" then m.key_tensor.dim 1 else m.query_tensor.dim 1] := by
  obtain ⟨hval, hvar⟩ := ok_variant E P attn_type pre_layernorm post_add m h
  rcases hvar with rfl | rfl
  · rw [run_context_eq E P pre_layernorm post_add m hval, if_pos rfl]
    exact runContext_att_score_shape E P pre_layernorm post_add m
  · rw [run_self_eq E P pre_layernorm post_add m hval,
      if_neg (by decide : ¬("self" : String) = "context")]
    exact runSelf_att_score_shape E P pre_layernorm post_add m

theorem c9_key_seq_length_witness :
    (multiHeadedAttention E0 P0 "context" false false
        (mkMem { tOnes with shape := [1, 2, 1] } tOnes tOnes mask0)).1.att_score.shape =
      [1, 1, 1, 2] :=
  c9_key_seq_length E0 P0 "context" false false
    (mkMem { tOnes with shape := [1, 2, 1] } tOnes tOnes mask0) rfl

theorem runContext_trace_infix {α : Type} [Field α] (E : ExtFns α) (P : MHAParams α)
    (pre_layernorm post_add : Bool) (m : Mem α) :
    List.IsInfix
      [KCall.batchMatMul false true
          ((1 : α) / E.sqrt ((m.query_tensor.dim 2 / P.num_attention_heads : Nat) : α)) 0,
        KCall.applyMaskAndSoftmax (1 : α)]
      (runContext E P pre_layernorm post_add m).trace := by
  cases pre_layernorm <;> cases post_add
  · exact ⟨[KCall.matMul false false 1 0, KCall.matMul false false 1 0,
      KCall.matMul false false 1 0, KCall.addBiasTransposeForScore,
      KCall.addBiasTransposeForScore, KCall.addBiasTransposeForScore],
      [KCall.batchMatMul false false 1 0, KCall.transposeForScore,
        KCall.matMul false false 1 0, KCall.addBias], rfl⟩
  · exact ⟨[KCall.matMul false false 1 0, KCall.matMul false false 1 0,
      KCall.matMul false false 1 0, KCall.addBiasTransposeForScore,
      KCall.addBiasTransposeForScore, KCall.addBiasTransposeForScore],
      [KCall.batchMatMul false false 1 0, KCall.transposeForScore,
        KCall.matMul false false 1 0, KCall.addInputBias], rfl⟩
  · exact ⟨[KCall.copy, KCall.layerNorm, KCall.matMul false false 1 0,
      KCall.matMul false false 1 0, KCall.matMul false false 1 0,
      KCall.addBiasTransposeForScore, KCall.addBiasTransposeForScore,
      KCall.addBiasTransposeForScore],
      [KCall.batchMatMul false false 1 0, KCall.transposeForScore,
        KCall.matMul false false 1 0, KCall.addBias], rfl⟩
  · exact ⟨[KCall.copy, KCall.layerNorm, KCall.matMul false false 1 0,
      KCall.matMul false false 1 0, KCall.matMul false false 1 0,
      KCall.addBiasTransposeForScore, KCall.addBiasTransposeForScore,
      KCall.addBiasTransposeForScore],
      [KCall.batchMatMul false false 1 0, KCall.transposeForScore,
        KCall.matMul false false 1 0, KCall.addInputBias], rfl⟩

theorem runSelf_trace_infix {α : Type} [Field α] (E : ExtFns α) (P : MHAParams α)
    (pre_layernorm post_add : Bool) (m : Mem α) :
    List.IsInfix
      [KCall.batchMatMul false true
          ((1 : α) / E.sqrt ((m.query_tensor.dim 2 / P.num_attention_heads : Nat) : α)) 0,
        KCall.applyMaskAndSoftmax (1 : α)]
      (runSelf E P pre_layernorm post_add m).trace := by
  cases pre_layernorm <;> cases post_add
  · exact ⟨[KCall.matMul false false 1 0, KCall.splitAddBiasTransposeForScore],
      [KCall.batchMatMul false false 1 0, KCall.transposeForScore,
        KCall.matMul false false 1 0, KCall.addBias], rfl⟩
  · exact ⟨[KCall.matMul false false 1 0, KCall.splitAddBiasTransposeForScore],
      [KCall.batchMatMul false false 1 0, KCall.transposeForScore,
        KCall.matMul false false 1 0, KCall.addInputBias], rfl⟩
  · exact ⟨[KCall.copy, KCall.layerNorm, KCall.matMul false false 1 0,
      KCall.splitAddBiasTransposeForScore],
      [KCall.batchMatMul false false 1 0, KCall.transposeForScore,
        KCall.matMul false false 1 0, KCall.addBias], rfl⟩
  · exact ⟨[KCall.copy, KCall.layerNorm, KCall.matMul false false 1 0,
      KCall.splitAddBiasTransposeForScore],
      [KCall.batchMatMul false false 1 0, KCall.transposeForScore,
        KCall.matMul false false 1 0, KCall.addInputBias], rfl⟩

/-- Claim C2: in every call that returns normally, the pre-softmax score is
produced by the batched matrix multiply of the head-major query against the
transposed head-major key with alpha = 1 / sqrt(headSize) and beta = 0 (no
accumulation), and the masked-softmax kernel immediately after it is invoked
with the fixed scale factor 1. -/
theorem c2_score_scaling {α : Type} [Field α] (E : ExtFns α) (P : MHAParams α)
    (attn_type : String) (pre_layernorm post_add : Bool) (m : Mem α)
    (h : (multiHeadedAttention E P attn_type pre_layernorm post_add m).2 = none) :
    List.IsInfix
      [KCall.batchMatMul false true
          ((1 : α) / E.sqrt ((m.query_tensor.dim 2 / P.num_attention_heads : Nat) : α)) 0,
        KCall.applyMaskAndSoftmax (1 : α)]
      (multiHeadedAttention E P attn_type pre_layernorm post_add m).1.trace := by
  obtain ⟨hval, hvar⟩ := ok_variant E P attn_type pre_layernorm post_add m h
  rcases hvar with rfl | rfl
  · rw [run_context_eq E P pre_layernorm post_add m hval]
    exact runContext_trace_infix E P pre_layernorm post_add m
  · rw [run_self_eq E P pre_layernorm post_add m hval]
    exact runSelf_trace_infix E P pre_layernorm post_add m

theorem c2_score_scaling_witness :
    List.IsInfix
      [KCall.batchMatMul false true
          ((1 : ZMod 5) / E0.sqrt ((m0.query_tensor.dim 2 / P0.num_attention_heads : Nat) :
            ZMod 5)) 0,
        KCall.applyMaskAndSoftmax (1 : ZMod 5)]
      (multiHeadedAttention E0 P0 "self" false false m0).1.trace :=
  c2_score_scaling E0 P0 "self" false false m0 rfl

theorem bad_variant_err {α : Type} [Field α] (E : ExtFns α) (P : MHAParams α)
    (attn_type : String) (pre_layernorm post_add : Bool) (m : Mem α)
    (hc : attn_type ≠ "context") (hs : attn_type ≠ "self") :
    (multiHeadedAttention E P attn_type pre_layernorm post_add m).2 ≠ none := by
  have hc2 : (attn_type == "context") = false := beq_eq_false_iff_ne.mpr hc
  have hs2 : (attn_type == "self") = false := beq_eq_false_iff_ne.mpr hs
  unfold multiHeadedAttention
  cases hdev : is_same_device_ctx m.key_tensor.dev m.attention_mask.dev with
  | false => simp [hdev]
  | true =>
    cases hk : m.key_tensor.n_dim == 3 with
    | false => simp [hdev, bne, hk]
    | true =>
      cases hv : m.value_tensor.n_dim == 3 with
      | false => simp [hdev, bne, hk, hv]
      | true =>
        cases hq : m.query_tensor.n_dim == 3 with
        | false => simp [hdev, bne, hk, hv, hq]
        | true =>
          cases hkv : m.key_tensor.dim 0 == m.value_tensor.dim 0 with
          | false => simp [hdev, bne, hk, hv, hq, hkv]
          | true => simp [hdev, bne, hk, hv, hq, hkv, hc2, hs2]

theorem bad_variant_invalid_argument {α : Type} [Field α] (E : ExtFns α) (P : MHAParams α)
    (attn_type : String) (pre_layernorm post_add : Bool) (m : Mem α)
    (hc : attn_type ≠ "context") (hs : attn_type ≠ "self")
    (hval : validOperands m = true) :
    multiHeadedAttention E P attn_type pre_layernorm post_add m =
      ({ m with trace := ([] : List (KCall α)) },
        some (TTError.invalidArgument "attn_type should be context or self.")) := by
  have hc2 : (attn_type == "context") = false := beq_eq_false_iff_ne.mpr hc
  have hs2 : (attn_type == "self") = false := beq_eq_false_iff_ne.mpr hs
  simp only [validOperands, Bool.and_eq_true, beq_iff_eq] at hval
  obtain ⟨⟨⟨⟨hdev, hk⟩, hv⟩, hq⟩, hkv⟩ := hval
  simp only [multiHeadedAttention, hdev, hk, hv, hq, hkv, bne_self_eq_false,
    Bool.not_true, Bool.false_eq_true, if_false, hc2, hs2]

/-- Claim C5 counterexample: a call whose variant is neither self nor context
but whose key tensor is rank 2 fails with a ShapeError, not with
InvalidArgument, so an invalid variant does not always fail with
InvalidArgument. -/
theorem c5_counterexample_shape_error_first :
    (multiHeadedAttention E0 P0 "foo" false false
        (mkMem tRank2 tOnes tOnes mask0)).2 =
      some (TTError.shapeError
        "The key_tensor should be a matrix with shape [batch_size, key_seq_len, hidden_size].") :=
  rfl

/-- Claim C5 (amended): every call with a variant string other than self or
context fails (returns an error) and leaves the caller output tensor (and the
whole state) untouched; when the call passes the device and shape validation,
the failure is the InvalidArgument throw of the key-sequence-length
derivation. -/
theorem c5_invalid_variant {α : Type} [Field α] (E : ExtFns α) (P : MHAParams α)
    (attn_type : String) (pre_layernorm post_add : Bool) (m : Mem α)
    (hc : attn_type ≠ "context") (hs : attn_type ≠ "self") :
    ((multiHeadedAttention E P attn_type pre_layernorm post_add m).2 ≠ none ∧
      (multiHeadedAttention E P attn_type pre_layernorm post_add m).1.output = m.output) ∧
      (validOperands m = true →
        multiHeadedAttention E P attn_type pre_layernorm post_add m =
          ({ m with trace := ([] : List (KCall α)) },
            some (TTError.invalidArgument "attn_type should be context or self."))) := by
  have hne := bad_variant_err E P attn_type pre_layernorm post_add m hc hs
  refine ⟨⟨hne, ?_⟩, fun hval =>
    bad_variant_invalid_argument E P attn_type pre_layernorm post_add m hc hs hval⟩
  rw [err_state E P attn_type pre_layernorm post_add m hne]

theorem c5_invalid_variant_witness :
    (((multiHeadedAttention E0 P0 "foo" false false m0).2 ≠ none ∧
      (multiHeadedAttention E0 P0 "foo" false false m0).1.output = m0.output) ∧
      (validOperands m0 = true →
        multiHeadedAttention E0 P0 "foo" false false m0 =
          ({ m0 with trace := ([] : List (KCall (ZMod 5))) },
            some (TTError.invalidArgument "attn_type should be context or self.")))) :=
  c5_invalid_variant E0 P0 "foo" false false m0 (by decide) (by decide)

/-- Claim C6 counterexample: a call whose value tensor lives on a different
device context than the key, query and mask returns normally, so the
orchestrator does not fail whenever the four operands do not all share one
device context. -/
theorem c6_counterexample_value_device_ignored :
    is_same_device_ctx (mkMem tOnes tTwosDev1 tOnes mask0).value_tensor.dev
        (mkMem tOnes tTwosDev1 tOnes mask0).key_tensor.dev = false ∧
      (multiHeadedAttention E0 P0 "context" false false
        (mkMem tOnes tTwosDev1 tOnes mask0)).2 = none :=
  ⟨rfl, rfl⟩

/-- Claim C6 (amended): the only device validation the orchestrator performs
is key versus mask: a mask whose device context differs from that of the
key tensor makes the call fail with DeviceMismatchError before anything is
written (the state is returned untouched). -/
theorem c6_mask_device_mismatch {α : Type} [Field α] (E : ExtFns α) (P : MHAParams α)
    (attn_type : String) (pre_layernorm post_add : Bool) (m : Mem α)
    (hdev : is_same_device_ctx m.key_tensor.dev m.attention_mask.dev = false) :
    multiHeadedAttention E P attn_type pre_layernorm post_add m =
      ({ m with trace := ([] : List (KCall α)) },
        some (TTError.deviceMismatch
          "The key_tensor and attention_mask should have the same device type and device id.")) := by
  simp only [multiHeadedAttention, hdev, Bool.not_false, if_true]

theorem c6_mask_device_mismatch_witness :
    multiHeadedAttention E0 P0 "self" false false (mkMem tOnes tOnes tOnes maskDev1) =
      ({ mkMem tOnes tOnes tOnes maskDev1 with trace := ([] : List (KCall (ZMod 5))) },
        some (TTError.deviceMismatch
          "The key_tensor and attention_mask should have the same device type and device id.")) :=
  c6_mask_device_mismatch E0 P0 "self" false false (mkMem tOnes tOnes tOnes maskDev1) rfl

theorem err_enum {α : Type} [Field α] (E : ExtFns α) (P : MHAParams α)
    (attn_type : String) (pre_layernorm post_add : Bool) (m : Mem α)
    (hc : attn_type ≠ "context") (hs : attn_type ≠ "self") :
    (multiHeadedAttention E P attn_type pre_layernorm post_add m).2 =
        some (TTError.deviceMismatch
          "The key_tensor and attention_mask should have the same device type and device id.") ∨
      (multiHeadedAttention E P attn_type pre_layernorm post_add m).2 =
        some (TTError.shapeError
          "The key_tensor should be a matrix with shape [batch_size, key_seq_len, hidden_size].") ∨
      (multiHeadedAttention E P attn_type pre_layernorm post_add m).2 =
        some (TTError.shapeError
          "The value_tensor should be a matrix with shape [batch_size, key_seq_len, hidden_size].") ∨
      (multiHeadedAttention E P attn_type pre_layernorm post_add m).2 =
        some (TTError.shapeError
          "The query_tensors should be a matrix with shape [batch_size, query_seq_len, hidden_size].") ∨
      (multiHeadedAttention E P attn_type pre_layernorm post_add m).2 =
        some (TTError.shapeError
          "The key_tensor and value_tensor should have the same hidden_size") ∨
      (multiHeadedAttention E P attn_type pre_layernorm post_add m).2 =
        some (TTError.invalidArgument "attn_type should be context or self.") := by
  have hc2 : (attn_type == "context") = false := beq_eq_false_iff_ne.mpr hc
  have hs2 : (attn_type == "self") = false := beq_eq_false_iff_ne.mpr hs
  unfold multiHeadedAttention
  cases hdev : is_same_device_ctx m.key_tensor.dev m.attention_mask.dev with
  | false => exact Or.inl (by simp [hdev])
  | true =>
    cases hk : m.key_tensor.n_dim == 3 with
    | false => exact Or.inr (Or.inl (by simp [hdev, bne, hk]))
    | true =>
      cases hv : m.value_tensor.n_dim == 3 with
      | false => exact Or.inr (Or.inr (Or.inl (by simp [hdev, bne, hk, hv])))
      | true =>
        cases hq : m.query_tensor.n_dim == 3 with
        | false => exact Or.inr (Or.inr (Or.inr (Or.inl (by simp [hdev, bne, hk, hv, hq]))))
        | true =>
          cases hkv : m.key_tensor.dim 0 == m.value_tensor.dim 0 with
          | false =>
            exact Or.inr (Or.inr (Or.inr (Or.inr (Or.inl
              (by simp [hdev, bne, hk, hv, hq, hkv])))))
          | true =>
            exact Or.inr (Or.inr (Or.inr (Or.inr (Or.inr
              (by simp [hdev, bne, hk, hv, hq, hkv, hc2, hs2])))))

/-- Claim C10: for every call with an attn_type outside context and self, the
throw happens at the validation or the key-sequence-length derivation: the
state (in particular every scratch-arena slot) is returned exactly as it was,
the error is one of the five validation errors or the early InvalidArgument
throw of line 68, and it is never the InvalidArgument throw of the
projection-stage dispatch (line 171), whose else arm is therefore
unreachable. -/
theorem c10_projection_else_unreachable {α : Type} [Field α] (E : ExtFns α)
    (P : MHAParams α) (attn_type : String) (pre_layernorm post_add : Bool) (m : Mem α)
    (hc : attn_type ≠ "context") (hs : attn_type ≠ "self") :
    (multiHeadedAttention E P attn_type pre_layernorm post_add m).1 =
        { m with trace := ([] : List (KCall α)) } ∧
      (multiHeadedAttention E P attn_type pre_layernorm post_add m).2 ≠
        some (TTError.invalidArgument
          (attn_type ++ " is not support in MultiHeadedAttention\n")) := by
  refine ⟨err_state E P attn_type pre_layernorm post_add m
    (bad_variant_err E P attn_type pre_layernorm post_add m hc hs), ?_⟩
  have hlen : ("attn_type should be context or self." : String) ≠
      attn_type ++ " is not support in MultiHeadedAttention\n" := by
    intro heq
    have h2 := congrArg String.length heq
    rw [String.length_append] at h2
    have h3 : ("attn_type should be context or self." : String).length = 36 := rfl
    have h4 : (" is not support in MultiHeadedAttention\n" : String).length = 40 := rfl
    rw [h3, h4] at h2
    omega
  rcases err_enum E P attn_type pre_layernorm post_add m hc hs with
    h1 | h1 | h1 | h1 | h1 | h1 <;> rw [h1] <;> intro heq <;> simp at heq
  exact hlen heq

theorem c10_projection_else_unreachable_witness :
    (multiHeadedAttention E0 P0 "foo" true false m0).1 =
        { m0 with trace := ([] : List (KCall (ZMod 5))) } ∧
      (multiHeadedAttention E0 P0 "foo" true false m0).2 ≠
        some (TTError.invalidArgument
          ("foo" ++ " is not support in MultiHeadedAttention\n")) :=
  c10_projection_else_unreachable E0 P0 "foo" true false m0 (by decide) (by decide)

/-- Claim C4: the validation of line 53 compares shape(0) of key and value
(their batch axes) although its message speaks of the hidden size: a key of
hidden size 2 and a value of hidden size 3 (equal batch) pass every check and
the call returns normally, with no ShapeError. -/
theorem c4_hidden_mismatch_accepted :
    (mkMem tHid2 tHid3 tHid2 mask0).key_tensor.dim 2 ≠
        (mkMem tHid2 tHid3 tHid2 mask0).value_tensor.dim 2 ∧
      (multiHeadedAttention E0 P0 "context" false false
        (mkMem tHid2 tHid3 tHid2 mask0)).2 = none :=
  ⟨by decide, rfl⟩

theorem commonTail_output_data {α : Type} [Field α] (E : ExtFns α) (P : MHAParams α)
    (batch_size query_seq_length key_seq_length hidden_size size_per_head : Nat)
    (devctx : DevCtx) (post_add : Bool) (q_ptr k_ptr v_ptr : Tensor α) (m : Mem α)
    (hdw : P.dense_weight.shape = [hidden_size, hidden_size])
    (hdiv : P.num_attention_heads * size_per_head = hidden_size) :
    ∀ f, (commonTail E P batch_size query_seq_length key_seq_length hidden_size
        size_per_head devctx post_add q_ptr k_ptr v_ptr m).output.data f =
      dotRange hidden_size
          (fun l => (commonTail E P batch_size query_seq_length key_seq_length hidden_size
            size_per_head devctx post_add q_ptr k_ptr v_ptr m).self_attr_out.data
            (f / hidden_size * hidden_size + l))
          (fun l => P.dense_weight.data (l * hidden_size + f % hidden_size)) +
        ((if post_add = true then m.query_tensor.data f else 0) +
          P.dense_bias.data (f % hidden_size)) := by
  have hshape : (commonTail E P batch_size query_seq_length key_seq_length hidden_size
      size_per_head devctx post_add q_ptr k_ptr v_ptr m).self_attr_out.shape =
      [batch_size, query_seq_length, P.num_attention_heads * size_per_head] := by
    cases post_add <;> rfl
  intro f
  cases post_add with
  | false =>
    show (AddBias P.dense_bias
        (MatMul (commonTail E P batch_size query_seq_length key_seq_length hidden_size
            size_per_head devctx false q_ptr k_ptr v_ptr m).self_attr_out false
          P.dense_weight false 1
          (m.output.reshape [batch_size, query_seq_length, hidden_size] devctx) 0)).data f = _
    simp only [AddBias, MatMul, Tensor.dim, Tensor.n_dim, Tensor.reshape, hshape, hdw,
      List.length_cons, List.length_nil, List.getD, List.get?, Option.getD, hdiv,
      Bool.false_eq_true, if_false, one_mul, zero_mul, add_zero, zero_add]
  | true =>
    show (AddInputBias
        (MatMul (commonTail E P batch_size query_seq_length key_seq_length hidden_size
            size_per_head devctx true q_ptr k_ptr v_ptr m).self_attr_out false
          P.dense_weight false 1
          (m.output.reshape [batch_size, query_seq_length, hidden_size] devctx) 0)
        m.query_tensor P.dense_bias
        (MatMul (commonTail E P batch_size query_seq_length key_seq_length hidden_size
            size_per_head devctx true q_ptr k_ptr v_ptr m).self_attr_out false
          P.dense_weight false 1
          (m.output.reshape [batch_size, query_seq_length, hidden_size] devctx) 0)).data f = _
    simp only [AddInputBias, MatMul, Tensor.dim, Tensor.n_dim, Tensor.reshape, hshape, hdw,
      List.length_cons, List.length_nil, List.getD, List.get?, Option.getD, hdiv,
      Bool.false_eq_true, if_false, if_pos, one_mul, zero_mul, add_zero, zero_add, add_assoc]

theorem contextBranch_query {α : Type} [Field α] (E : ExtFns α) (P : MHAParams α)
    (batch_size query_seq_length key_seq_length hidden_size size_per_head : Nat)
    (devctx : DevCtx) (pre_layernorm : Bool) (m : Mem α) :
    (contextBranch E P batch_size query_seq_length key_seq_length hidden_size
      size_per_head devctx pre_layernorm m).1.query_tensor = m.query_tensor := by
  cases pre_layernorm <;> rfl

theorem selfBranch_query {α : Type} [Field α] (E : ExtFns α) (P : MHAParams α)
    (batch_size query_seq_length hidden_size size_per_head : Nat)
    (devctx : DevCtx) (pre_layernorm : Bool) (m : Mem α) :
    (selfBranch E P batch_size query_seq_length hidden_size
      size_per_head devctx pre_layernorm m).1.query_tensor = m.query_tensor := by
  cases pre_layernorm <;> rfl

/-- Claim C3: on every normal return, each output entry is the dense
projection of the unshaped attention result (the self_attr_out scratch
tensor) plus the dense bias, plus additionally the original query entry when
postAdd is set. -/
theorem c3_output_residual {α : Type} [Field α] (E : ExtFns α) (P : MHAParams α)
    (attn_type : String) (pre_layernorm post_add : Bool) (m : Mem α)
    (hdw : P.dense_weight.shape = [m.query_tensor.dim 2, m.query_tensor.dim 2])
    (hdiv : P.num_attention_heads * (m.query_tensor.dim 2 / P.num_attention_heads) =
      m.query_tensor.dim 2)
    (h : (multiHeadedAttention E P attn_type pre_layernorm post_add m).2 = none) :
    ∀ f, (multiHeadedAttention E P attn_type pre_layernorm post_add m).1.output.data f =
      dotRange (m.query_tensor.dim 2)
          (fun l => (multiHeadedAttention E P attn_type pre_layernorm post_add
            m).1.self_attr_out.data
            (f / m.query_tensor.dim 2 * m.query_tensor.dim 2 + l))
          (fun l => P.dense_weight.data
            (l * m.query_tensor.dim 2 + f % m.query_tensor.dim 2)) +
        ((if post_add = true then m.query_tensor.data f else 0) +
          P.dense_bias.data (f % m.query_tensor.dim 2)) := by
  obtain ⟨hval, hvar⟩ := ok_variant E P attn_type pre_layernorm post_add m h
  intro f
  rcases hvar with rfl | rfl
  · rw [run_context_eq E P pre_layernorm post_add m hval]
    simp only [runContext]
    rcases hcb : contextBranch E P (m.query_tensor.dim 0) (m.query_tensor.dim 1)
        (m.key_tensor.dim 1) (m.query_tensor.dim 2)
        (m.query_tensor.dim 2 / P.num_attention_heads) m.query_tensor.dev pre_layernorm
        { m with trace := ([] : List (KCall α)) } with ⟨m2, q_ptr, k_ptr, v_ptr⟩
    have hq2 : m2.query_tensor = m.query_tensor := by
      have h1 := congrArg (fun p => p.1.query_tensor) hcb
      simp only at h1
      rw [← h1]
      exact contextBranch_query E P (m.query_tensor.dim 0) (m.query_tensor.dim 1)
        (m.key_tensor.dim 1) (m.query_tensor.dim 2)
        (m.query_tensor.dim 2 / P.num_attention_heads) m.query_tensor.dev pre_layernorm
        { m with trace := ([] : List (KCall α)) }
    dsimp only
    rw [commonTail_output_data E P (m.query_tensor.dim 0) (m.query_tensor.dim 1)
      (m.key_tensor.dim 1) (m.query_tensor.dim 2)
      (m.query_tensor.dim 2 / P.num_attention_heads) m.query_tensor.dev post_add
      q_ptr k_ptr v_ptr m2 hdw hdiv, hq2]
  · rw [run_self_eq E P pre_layernorm post_add m hval]
    simp only [runSelf]
    rcases hcb : selfBranch E P (m.query_tensor.dim 0) (m.query_tensor.dim 1)
        (m.query_tensor.dim 2) (m.query_tensor.dim 2 / P.num_attention_heads)
        m.query_tensor.dev pre_layernorm
        { m with trace := ([] : List (KCall α)) } with ⟨m2, q_ptr, k_ptr, v_ptr⟩
    have hq2 : m2.query_tensor = m.query_tensor := by
      have h1 := congrArg (fun p => p.1.query_tensor) hcb
      simp only at h1
      rw [← h1]
      exact selfBranch_query E P (m.query_tensor.dim 0) (m.query_tensor.dim 1)
        (m.query_tensor.dim 2) (m.query_tensor.dim 2 / P.num_attention_heads)
        m.query_tensor.dev pre_layernorm { m with trace := ([] : List (KCall α)) }
    dsimp only
    rw [commonTail_output_data E P (m.query_tensor.dim 0) (m.query_tensor.dim 1)
      (m.query_tensor.dim 1) (m.query_tensor.dim 2)
      (m.query_tensor.dim 2 / P.num_attention_heads) m.query_tensor.dev post_add
      q_ptr k_ptr v_ptr m2 hdw hdiv, hq2]

theorem c3_output_residual_witness :
    (multiHeadedAttention E0 P0 "context" false true m0).1.output.data 0 =
      dotRange (m0.query_tensor.dim 2)
          (fun l => (multiHeadedAttention E0 P0 "context" false true
            m0).1.self_attr_out.data
            (0 / m0.query_tensor.dim 2 * m0.query_tensor.dim 2 + l))
          (fun l => P0.dense_weight.data
            (l * m0.query_tensor.dim 2 + 0 % m0.query_tensor.dim 2)) +
        ((if true = true then m0.query_tensor.data 0 else 0) +
          P0.dense_bias.data (0 % m0.query_tensor.dim 2)) :=
  c3_output_residual E0 P0 "context" false true m0 rfl rfl rfl 0

theorem idx2_lt {a A y Y : Nat} (ha : a < A) (hy : y < Y) : a * Y + y < A * Y := by
  calc a * Y + y < a * Y + Y := by omega
  _ = (a + 1) * Y := by ring
  _ ≤ A * Y := Nat.mul_le_mul_right Y ha

theorem dotRange_congr {α : Type} [Field α] (k : Nat) (f1 g1 f2 g2 : Nat → α)
    (hf : ∀ l, l < k → f1 l = f2 l) (hg : ∀ l, l < k → g1 l = g2 l) :
    dotRange k f1 g1 = dotRange k f2 g2 := by
  induction k with
  | zero => rfl
  | succ k2 ih =>
    simp only [dotRange]
    rw [ih (fun l hl => hf l (Nat.lt_succ_of_lt hl)) (fun l hl => hg l (Nat.lt_succ_of_lt hl)),
      hf k2 (Nat.lt_succ_self k2), hg k2 (Nat.lt_succ_self k2)]

theorem mulfour_div_lt {f hs s nh b : Nat} (hhs : 0 < hs) (hS : 0 < s)
    (hnh : 0 < nh) (hf : f < b * nh * s * hs) : f / (hs * s * nh) < b := by
  have hpos : 0 < hs * s * nh := by positivity
  rw [Nat.div_lt_iff_lt_mul hpos]
  calc f < b * nh * s * hs := hf
  _ = b * (hs * s * nh) := by ring

theorem split_decomp {hs s nh b : Nat} (t f : Nat) (hhs : 0 < hs) (hS : 0 < s)
    (hnh : 0 < nh) (hB : 0 < b) (hf : f < b * nh * s * hs) :
    (t * (b * nh * s * hs) + f) % hs = f % hs ∧
      (t * (b * nh * s * hs) + f) / hs % s = f / hs % s ∧
      (t * (b * nh * s * hs) + f) / (hs * s) % nh = f / (hs * s) % nh ∧
      (t * (b * nh * s * hs) + f) / (hs * s * nh) % b = f / (hs * s * nh) ∧
      (t * (b * nh * s * hs) + f) / (hs * s * nh * b) = t := by
  have e0 : t * (b * nh * s * hs) + f = f + t * (s * nh * b) * hs := by ring
  have e1 : (t * (b * nh * s * hs) + f) / hs = f / hs + t * (s * nh * b) := by
    rw [e0, Nat.add_mul_div_right _ _ hhs]
  have e2 : (t * (b * nh * s * hs) + f) / (hs * s) = f / (hs * s) + t * (nh * b) := by
    rw [← Nat.div_div_eq_div_mul, e1]
    have : t * (s * nh * b) = t * (nh * b) * s := by ring
    rw [this, Nat.add_mul_div_right _ _ hS, Nat.div_div_eq_div_mul]
  have e3 : (t * (b * nh * s * hs) + f) / (hs * s * nh) = f / (hs * s * nh) + t * b := by
    rw [← Nat.div_div_eq_div_mul, e2]
    have : t * (nh * b) = t * b * nh := by ring
    rw [this, Nat.add_mul_div_right _ _ hnh, Nat.div_div_eq_div_mul]
  have hflt : f / (hs * s * nh) < b := mulfour_div_lt hhs hS hnh hf
  refine ⟨?_, ?_, ?_, ?_, ?_⟩
  · rw [e0, Nat.add_mul_mod_self_right]
  · rw [e1]
    have : t * (s * nh * b) = t * (nh * b) * s := by ring
    rw [this, Nat.add_mul_mod_self_right]
  · rw [e2]
    have : t * (nh * b) = t * b * nh := by ring
    rw [this, Nat.add_mul_mod_self_right]
  · rw [e3, Nat.add_mul_mod_self_right, Nat.mod_eq_of_lt hflt]
  · rw [← Nat.div_div_eq_div_mul, e3, Nat.add_mul_div_right _ _ hB,
      Nat.div_eq_of_lt hflt, Nat.zero_add]

theorem row_major_div {x c H : Nat} (hc : c < H) : (x * H + c) / H = x ∧ (x * H + c) % H = c := by
  have hH : 0 < H := Nat.pos_of_ne_zero (by rintro rfl; omega)
  constructor
  · rw [Nat.add_comm, Nat.add_mul_div_right _ _ hH, Nat.div_eq_of_lt hc, Nat.zero_add]
  · rw [Nat.add_comm, Nat.add_mul_mod_self_right, Nat.mod_eq_of_lt hc]

theorem branch_q_eq {α : Type} [Field α] (E : ExtFns α) (P : MHAParams α)
    (B S H nh hs : Nat) (dc : DevCtx) (m : Mem α)
    (hq : m.query_tensor.shape = [B, S, H])
    (hnh : P.num_attention_heads = nh) (hH : H = nh * hs)
    (hB : 0 < B) (hS : 0 < S) (hnh0 : 0 < nh) (hhs0 : 0 < hs)
    (hqw : P.q_weight.shape = [H, H]) (hqkvw : P.qkv_weight.shape = [H, 3 * H])
    (hWq : ∀ r c, c < H → P.qkv_weight.data (r * (3 * H) + c) = P.q_weight.data (r * H + c))
    (hbq : ∀ c, c < H → P.qkv_bias.data c = P.q_bias.data c) :
    EqBelow (B * nh * S * hs)
      (contextBranch E P B S S H hs dc false m).2.1
      (selfBranch E P B S H hs dc false m).2.1 := by
  intro f hf
  show (AddBiasTransposeForScore
      ((MatMul m.query_tensor false P.q_weight false 1 (m.q_out1.reshape [B, S, H] dc) 0).reshape
        [B, S, P.num_attention_heads, hs] dc)
      P.q_bias
      (m.q_out2.reshape [B, P.num_attention_heads, S, hs] dc)).data f =
    ((SplitAddBiasTransposeForScore
      (m.qkv_out2.reshape [3, B, P.num_attention_heads, S, hs] dc)
      (MatMul m.query_tensor false P.qkv_weight false 1 (m.qkv_out1.reshape [3, B, S, H] dc) 0)
      P.qkv_bias).slice 0).data f
  have hb0 : f / (hs * S * nh) < B := mulfour_div_lt hhs0 hS hnh0 hf
  have hbmod : f / (hs * S * nh) % B = f / (hs * S * nh) := Nat.mod_eq_of_lt hb0
  have ht0 : f / (hs * S * nh * B) = 0 := by
    refine Nat.div_eq_of_lt ?_
    calc f < B * nh * S * hs := hf
    _ = hs * S * nh * B := by ring
  have hnlt : f / (hs * S) % nh < nh := Nat.mod_lt _ hnh0
  have hhlt : f % hs < hs := Nat.mod_lt _ hhs0
  have hc : f / (hs * S) % nh * hs + f % hs < H := by rw [hH]; exact idx2_lt hnlt hhlt
  have hc3 : f / (hs * S) % nh * hs + f % hs < 3 * H := by omega
  have hg : ((f / (hs * S * nh) * S + f / hs % S) * nh + f / (hs * S) % nh) * hs + f % hs =
      (f / (hs * S * nh) * S + f / hs % S) * H + (f / (hs * S) % nh * hs + f % hs) := by
    rw [hH]; ring
  simp only [AddBiasTransposeForScore, SplitAddBiasTransposeForScore, MatMul, Tensor.slice,
    Tensor.reshape, Tensor.dim, Tensor.n_dim, Tensor.numel, listProd, List.getD_cons_zero,
    List.getD_cons_succ, List.length_cons, List.length_nil, List.foldr, hnh, hq, hqw, hqkvw,
    Bool.false_eq_true, if_false, mul_one, one_mul, Nat.zero_mul, zero_mul, Nat.zero_add,
    zero_add, add_zero, hbmod, ht0]
  simp only [← hH, hg, (row_major_div hc).1, (row_major_div hc).2, (row_major_div hc3).1,
    (row_major_div hc3).2]
  congr 1
  · exact dotRange_congr H _ _ _ _ (fun l hl => rfl)
      (fun l hl => (hWq l (f / (hs * S) % nh * hs + f % hs) hc).symm)
  · exact (hbq (f / (hs * S) % nh * hs + f % hs) hc).symm

theorem branch_k_eq {α : Type} [Field α] (E : ExtFns α) (P : MHAParams α)
    (B S H nh hs : Nat) (dc : DevCtx) (m : Mem α)
    (hq : m.query_tensor.shape = [B, S, H]) (hk : m.key_tensor = m.query_tensor)
    (hnh : P.num_attention_heads = nh) (hH : H = nh * hs)
    (hB : 0 < B) (hS : 0 < S) (hnh0 : 0 < nh) (hhs0 : 0 < hs)
    (hkw : P.k_weight.shape = [H, H]) (hqkvw : P.qkv_weight.shape = [H, 3 * H])
    (hWk : ∀ r c, c < H →
      P.qkv_weight.data (r * (3 * H) + (H + c)) = P.k_weight.data (r * H + c))
    (hbk : ∀ c, c < H → P.qkv_bias.data (H + c) = P.k_bias.data c) :
    EqBelow (B * nh * S * hs)
      (contextBranch E P B S S H hs dc false m).2.2.1
      (selfBranch E P B S H hs dc false m).2.2.1 := by
  intro f hf
  show (AddBiasTransposeForScore
      ((MatMul m.key_tensor false P.k_weight false 1 (m.k_out1.reshape [B, S, H] dc) 0).reshape
        [B, S, P.num_attention_heads, hs] dc)
      P.k_bias
      (m.k_out2.reshape [B, P.num_attention_heads, S, hs] dc)).data f =
    ((SplitAddBiasTransposeForScore
      (m.qkv_out2.reshape [3, B, P.num_attention_heads, S, hs] dc)
      (MatMul m.query_tensor false P.qkv_weight false 1 (m.qkv_out1.reshape [3, B, S, H] dc) 0)
      P.qkv_bias).slice 1).data f
  have hdec := split_decomp (b := B) (s := S) 1 f hhs0 hS hnh0 hB hf
  have hbmod : f / (hs * S * nh) % B = f / (hs * S * nh) :=
    Nat.mod_eq_of_lt (mulfour_div_lt hhs0 hS hnh0 hf)
  have hnlt : f / (hs * S) % nh < nh := Nat.mod_lt _ hnh0
  have hhlt : f % hs < hs := Nat.mod_lt _ hhs0
  have hc : f / (hs * S) % nh * hs + f % hs < H := by rw [hH]; exact idx2_lt hnlt hhlt
  have hc3 : H + (f / (hs * S) % nh * hs + f % hs) < 3 * H := by omega
  have hg : ((f / (hs * S * nh) * S + f / hs % S) * nh + f / (hs * S) % nh) * hs + f % hs =
      (f / (hs * S * nh) * S + f / hs % S) * H + (f / (hs * S) % nh * hs + f % hs) := by
    rw [hH]; ring
  have e1 : B * (nh * (S * hs)) + f = 1 * (B * nh * S * hs) + f := by ring
  simp only [one_mul] at hdec e1
  simp only [AddBiasTransposeForScore, SplitAddBiasTransposeForScore, MatMul, Tensor.slice,
    Tensor.reshape, Tensor.dim, Tensor.n_dim, Tensor.numel, listProd, List.getD_cons_zero,
    List.getD_cons_succ, List.length_cons, List.length_nil, List.foldr, hnh, hq, hk, hkw,
    hqkvw, Bool.false_eq_true, if_false, mul_one, one_mul, Nat.zero_mul, zero_mul,
    Nat.zero_add, zero_add, add_zero, e1, hdec.1, hdec.2.1, hdec.2.2.1, hdec.2.2.2.1,
    hdec.2.2.2.2, hbmod]
  simp only [← hH, hg, (row_major_div hc).1, (row_major_div hc).2, one_mul,
    (row_major_div hc3).1, (row_major_div hc3).2]
  congr 1
  · exact dotRange_congr H _ _ _ _ (fun l hl => rfl)
      (fun l hl => (hWk l (f / (hs * S) % nh * hs + f % hs) hc).symm)
  · exact (hbk (f / (hs * S) % nh * hs + f % hs) hc).symm

theorem branch_v_eq {α : Type} [Field α] (E : ExtFns α) (P : MHAParams α)
    (B S H nh hs : Nat) (dc : DevCtx) (m : Mem α)
    (hq : m.query_tensor.shape = [B, S, H]) (hv : m.value_tensor = m.query_tensor)
    (hnh : P.num_attention_heads = nh) (hH : H = nh * hs)
    (hB : 0 < B) (hS : 0 < S) (hnh0 : 0 < nh) (hhs0 : 0 < hs)
    (hvw : P.v_weight.shape = [H, H]) (hqkvw : P.qkv_weight.shape = [H, 3 * H])
    (hWv : ∀ r c, c < H →
      P.qkv_weight.data (r * (3 * H) + (2 * H + c)) = P.v_weight.data (r * H + c))
    (hbv : ∀ c, c < H → P.qkv_bias.data (2 * H + c) = P.v_bias.data c) :
    EqBelow (B * nh * S * hs)
      (contextBranch E P B S S H hs dc false m).2.2.2
      (selfBranch E P B S H hs dc false m).2.2.2 := by
  intro f hf
  show (AddBiasTransposeForScore
      ((MatMul m.value_tensor false P.v_weight false 1 (m.v_out1.reshape [B, S, H] dc) 0).reshape
        [B, S, P.num_attention_heads, hs] dc)
      P.v_bias
      (m.v_out2.reshape [B, P.num_attention_heads, S, hs] dc)).data f =
    ((SplitAddBiasTransposeForScore
      (m.qkv_out2.reshape [3, B, P.num_attention_heads, S, hs] dc)
      (MatMul m.query_tensor false P.qkv_weight false 1 (m.qkv_out1.reshape [3, B, S, H] dc) 0)
      P.qkv_bias).slice 2).data f
  have hdec := split_decomp (b := B) (s := S) 2 f hhs0 hS hnh0 hB hf
  have hbmod : f / (hs * S * nh) % B = f / (hs * S * nh) :=
    Nat.mod_eq_of_lt (mulfour_div_lt hhs0 hS hnh0 hf)
  have hnlt : f / (hs * S) % nh < nh := Nat.mod_lt _ hnh0
  have hhlt : f % hs < hs := Nat.mod_lt _ hhs0
  have hc : f / (hs * S) % nh * hs + f % hs < H := by rw [hH]; exact idx2_lt hnlt hhlt
  have hc3 : 2 * H + (f / (hs * S) % nh * hs + f % hs) < 3 * H := by omega
  have hg : ((f / (hs * S * nh) * S + f / hs % S) * nh + f / (hs * S) % nh) * hs + f % hs =
      (f / (hs * S * nh) * S + f / hs % S) * H + (f / (hs * S) % nh * hs + f % hs) := by
    rw [hH]; ring
  have e1 : 2 * (B * (nh * (S * hs))) + f = 2 * (B * nh * S * hs) + f := by ring
  simp only [AddBiasTransposeForScore, SplitAddBiasTransposeForScore, MatMul, Tensor.slice,
    Tensor.reshape, Tensor.dim, Tensor.n_dim, Tensor.numel, listProd, List.getD_cons_zero,
    List.getD_cons_succ, List.length_cons, List.length_nil, List.foldr, hnh, hq, hv, hvw,
    hqkvw, Bool.false_eq_true, if_false, mul_one, one_mul, Nat.zero_mul, zero_mul,
    Nat.zero_add, zero_add, add_zero, e1, hdec.1, hdec.2.1, hdec.2.2.1, hdec.2.2.2.1,
    hdec.2.2.2.2, hbmod]
  simp only [← hH, hg, (row_major_div hc).1, (row_major_div hc).2,
    (row_major_div hc3).1, (row_major_div hc3).2]
  congr 1
  · exact dotRange_congr H _ _ _ _ (fun l hl => rfl)
      (fun l hl => (hWv l (f / (hs * S) % nh * hs + f % hs) hc).symm)
  · exact (hbv (f / (hs * S) % nh * hs + f % hs) hc).symm

theorem bmm_qk_congr {α : Type} [Field α] {B S nh hs : Nat} (alpha : α)
    (q1 k1 q2 k2 o1 o2 : Tensor α) (hS : 0 < S) (hhs0 : 0 < hs) (hnh0 : 0 < nh)
    (hq1s : q1.shape = [B, nh, S, hs]) (hq2s : q2.shape = [B, nh, S, hs])
    (hk1s : k1.shape = [B, nh, S, hs]) (hk2s : k2.shape = [B, nh, S, hs])
    (heqq : EqBelow (B * nh * S * hs) q1 q2) (heqk : EqBelow (B * nh * S * hs) k1 k2) :
    EqBelow (B * nh * S * S)
      (BatchMatMul q1 false k1 true alpha o1 0) (BatchMatMul q2 false k2 true alpha o2 0) := by
  intro f hf
  have hbi : f / (S * S) < B * nh := by
    rw [Nat.div_lt_iff_lt_mul (by positivity)]
    calc f < B * nh * S * S := hf
    _ = B * nh * (S * S) := by ring
  have hr : f % (S * S) / S < S := by
    rw [Nat.div_lt_iff_lt_mul hS]
    exact Nat.mod_lt _ (by positivity)
  have hcc : f % S < S := Nat.mod_lt _ hS
  simp only [BatchMatMul, Tensor.dim, Tensor.n_dim, hq1s, hq2s, hk1s, hk2s,
    List.length_cons, List.length_nil, List.getD_cons_zero, List.getD_cons_succ,
    Bool.false_eq_true, if_false, eq_self_iff_true, if_true, zero_mul, add_zero]
  congr 1
  exact dotRange_congr hs _ _ _ _
    (fun l hl => heqq _ (lt_of_lt_of_eq (idx2_lt hbi (idx2_lt hr hl)) (by ring)))
    (fun l hl => heqk _ (lt_of_lt_of_eq (idx2_lt hbi (idx2_lt hcc hl)) (by ring)))

theorem ams_congr {α : Type} [Field α] {B S nh : Nat} (E : ExtFns α)
    (sc1 sc2 mask : Tensor α) (scale : α) (hS : 0 < S) (hnh0 : 0 < nh) (hB : 0 < B)
    (hsc1 : sc1.shape = [B, nh, S, S]) (hsc2 : sc2.shape = [B, nh, S, S])
    (heq : EqBelow (B * nh * S * S) sc1 sc2) :
    EqBelow (B * nh * S * S)
      (ApplyMaskAndSoftmax E sc1 mask scale) (ApplyMaskAndSoftmax E sc2 mask scale) := by
  intro f hf
  have hdivS : f / S < B * nh * S := by
    rw [Nat.div_lt_iff_lt_mul hS]
    exact hf
  have hrow : (List.range S).map (fun j => sc1.data (f / S * S + j)) =
      (List.range S).map (fun j => sc2.data (f / S * S + j)) := by
    refine List.map_congr_left (fun j hj => heq _ ?_)
    exact idx2_lt hdivS (List.mem_range.mp hj)
  simp only [ApplyMaskAndSoftmax, Tensor.dim, Tensor.n_dim, hsc1, hsc2,
    List.length_cons, List.length_nil, List.getD_cons_zero, List.getD_cons_succ,
    hrow, heq f hf]

theorem bmm_av_congr {α : Type} [Field α] {B S nh hs : Nat}
    (a1 v1 a2 v2 o1 o2 : Tensor α) (hS : 0 < S) (hhs0 : 0 < hs) (hnh0 : 0 < nh)
    (ha1s : a1.shape = [B, nh, S, S]) (ha2s : a2.shape = [B, nh, S, S])
    (hv1s : v1.shape = [B, nh, S, hs]) (hv2s : v2.shape = [B, nh, S, hs])
    (heqa : EqBelow (B * nh * S * S) a1 a2) (heqv : EqBelow (B * nh * S * hs) v1 v2) :
    EqBelow (B * nh * S * hs)
      (BatchMatMul a1 false v1 false 1 o1 0) (BatchMatMul a2 false v2 false 1 o2 0) := by
  intro f hf
  have hbi : f / (S * hs) < B * nh := by
    rw [Nat.div_lt_iff_lt_mul (by positivity)]
    calc f < B * nh * S * hs := hf
    _ = B * nh * (S * hs) := by ring
  have hr : f % (S * hs) / hs < S := by
    rw [Nat.div_lt_iff_lt_mul hhs0]
    exact Nat.mod_lt _ (by positivity)
  have hcc : f % hs < hs := Nat.mod_lt _ hhs0
  simp only [BatchMatMul, Tensor.dim, Tensor.n_dim, ha1s, ha2s, hv1s, hv2s,
    List.length_cons, List.length_nil, List.getD_cons_zero, List.getD_cons_succ,
    Bool.false_eq_true, if_false, zero_mul, add_zero]
  congr 1
  exact dotRange_congr S _ _ _ _
    (fun l hl => heqa _ (lt_of_lt_of_eq (idx2_lt hbi (idx2_lt hr hl)) (by ring)))
    (fun l hl => heqv _ (lt_of_lt_of_eq (idx2_lt hbi (idx2_lt hl hcc)) (by ring)))

theorem tfs_congr {α : Type} [Field α] {B S nh hs : Nat}
    (cl1 cl2 o1 o2 : Tensor α) (hS : 0 < S) (hhs0 : 0 < hs) (hnh0 : 0 < nh)
    (hc1s : cl1.shape = [B, nh, S, hs]) (hc2s : cl2.shape = [B, nh, S, hs])
    (heq : EqBelow (B * nh * S * hs) cl1 cl2) :
    EqBelow (B * S * (nh * hs))
      (TransposeForScore o1 cl1) (TransposeForScore o2 cl2) := by
  intro f hf
  have hb : f / (hs * nh * S) < B := by
    rw [Nat.div_lt_iff_lt_mul (by positivity)]
    calc f < B * S * (nh * hs) := hf
    _ = B * (hs * nh * S) := by ring
  have hn : f / hs % nh < nh := Nat.mod_lt _ hnh0
  have hsi : f / (hs * nh) % S < S := Nat.mod_lt _ hS
  have hh : f % hs < hs := Nat.mod_lt _ hhs0
  simp only [TransposeForScore, Tensor.dim, Tensor.n_dim, hc1s, hc2s,
    List.length_cons, List.length_nil, List.getD_cons_zero, List.getD_cons_succ]
  exact heq _ (idx2_lt (idx2_lt (idx2_lt hb hn) hsi) hh)

theorem dense_congr {α : Type} [Field α] {B S H nh hs : Nat} (P : MHAParams α)
    (sao1 sao2 o1 o2 : Tensor α) (hH0 : 0 < H) (hH : H = nh * hs)
    (hs1 : sao1.shape = [B, S, nh * hs]) (hs2 : sao2.shape = [B, S, nh * hs])
    (hdw : P.dense_weight.shape = [H, H])
    (heq : EqBelow (B * S * (nh * hs)) sao1 sao2) :
    EqBelow (B * S * H)
      (MatMul sao1 false P.dense_weight false 1 o1 0)
      (MatMul sao2 false P.dense_weight false 1 o2 0) := by
  intro f hf
  have hi : f / H < B * S := by
    rw [Nat.div_lt_iff_lt_mul hH0]
    exact hf
  simp only [MatMul, Tensor.dim, Tensor.n_dim, hs1, hs2, hdw,
    List.length_cons, List.length_nil, List.getD_cons_zero, List.getD_cons_succ,
    Bool.false_eq_true, if_false, zero_mul, add_zero, one_mul]
  exact dotRange_congr (nh * hs) _ _ _ _
    (fun l hl => heq _ (idx2_lt hi hl)) (fun l hl => rfl)

theorem commonTail_EqBelow {α : Type} [Field α] (E : ExtFns α) (P : MHAParams α)
    (B S H nh hs : Nat) (dc : DevCtx) (post_add : Bool)
    (q1 k1 v1 q2 k2 v2 : Tensor α) (m1 m2 : Mem α)
    (hnh : P.num_attention_heads = nh) (hH : H = nh * hs)
    (hB : 0 < B) (hS : 0 < S) (hnh0 : 0 < nh) (hhs0 : 0 < hs)
    (hdw : P.dense_weight.shape = [H, H])
    (hmask : m1.attention_mask = m2.attention_mask)
    (hquery : m1.query_tensor = m2.query_tensor)
    (hq1s : q1.shape = [B, nh, S, hs]) (hq2s : q2.shape = [B, nh, S, hs])
    (hk1s : k1.shape = [B, nh, S, hs]) (hk2s : k2.shape = [B, nh, S, hs])
    (hv1s : v1.shape = [B, nh, S, hs]) (hv2s : v2.shape = [B, nh, S, hs])
    (heqq : EqBelow (B * nh * S * hs) q1 q2)
    (heqk : EqBelow (B * nh * S * hs) k1 k2)
    (heqv : EqBelow (B * nh * S * hs) v1 v2) :
    EqBelow (B * S * H)
      (commonTail E P B S S H hs dc post_add q1 k1 v1 m1).output
      (commonTail E P B S S H hs dc post_add q2 k2 v2 m2).output := by
  have hH0 : 0 < H := by rw [hH]; positivity
  have h1 : EqBelow (B * nh * S * S)
      (BatchMatMul q1 false k1 true ((1 : α) / E.sqrt (hs : α))
        (m1.att_score.reshape [B, P.num_attention_heads, S, S] dc) 0)
      (BatchMatMul q2 false k2 true ((1 : α) / E.sqrt (hs : α))
        (m2.att_score.reshape [B, P.num_attention_heads, S, S] dc) 0) :=
    bmm_qk_congr _ _ _ _ _ _ _ hS hhs0 hnh0 hq1s hq2s hk1s hk2s heqq heqk
  have hsc1s : (BatchMatMul q1 false k1 true ((1 : α) / E.sqrt (hs : α))
      (m1.att_score.reshape [B, P.num_attention_heads, S, S] dc) 0).shape =
      [B, nh, S, S] := by
    simp [BatchMatMul, Tensor.reshape, hnh]
  have hsc2s : (BatchMatMul q2 false k2 true ((1 : α) / E.sqrt (hs : α))
      (m2.att_score.reshape [B, P.num_attention_heads, S, S] dc) 0).shape =
      [B, nh, S, S] := by
    simp [BatchMatMul, Tensor.reshape, hnh]
  have h2 : EqBelow (B * nh * S * S)
      (ApplyMaskAndSoftmax E
        (BatchMatMul q1 false k1 true ((1 : α) / E.sqrt (hs : α))
          (m1.att_score.reshape [B, P.num_attention_heads, S, S] dc) 0)
        m1.attention_mask 1)
      (ApplyMaskAndSoftmax E
        (BatchMatMul q2 false k2 true ((1 : α) / E.sqrt (hs : α))
          (m2.att_score.reshape [B, P.num_attention_heads, S, S] dc) 0)
        m2.attention_mask 1) := by
    rw [hmask]
    exact ams_congr E _ _ _ _ hS hnh0 hB hsc1s hsc2s h1
  have hams1s : (ApplyMaskAndSoftmax E
      (BatchMatMul q1 false k1 true ((1 : α) / E.sqrt (hs : α))
        (m1.att_score.reshape [B, P.num_attention_heads, S, S] dc) 0)
      m1.attention_mask 1).shape = [B, nh, S, S] := hsc1s
  have hams2s : (ApplyMaskAndSoftmax E
      (BatchMatMul q2 false k2 true ((1 : α) / E.sqrt (hs : α))
        (m2.att_score.reshape [B, P.num_attention_heads, S, S] dc) 0)
      m2.attention_mask 1).shape = [B, nh, S, S] := hsc2s
  have h3 : EqBelow (B * nh * S * hs)
      (BatchMatMul
        (ApplyMaskAndSoftmax E
          (BatchMatMul q1 false k1 true ((1 : α) / E.sqrt (hs : α))
            (m1.att_score.reshape [B, P.num_attention_heads, S, S] dc) 0)
          m1.attention_mask 1)
        false v1 false 1 (m1.context_layer.reshape [B, P.num_attention_heads, S, hs] dc) 0)
      (BatchMatMul
        (ApplyMaskAndSoftmax E
          (BatchMatMul q2 false k2 true ((1 : α) / E.sqrt (hs : α))
            (m2.att_score.reshape [B, P.num_attention_heads, S, S] dc) 0)
          m2.attention_mask 1)
        false v2 false 1 (m2.context_layer.reshape [B, P.num_attention_heads, S, hs] dc) 0) :=
    bmm_av_congr _ _ _ _ _ _ hS hhs0 hnh0 hams1s hams2s hv1s hv2s h2 heqv
  have hcl1s : (BatchMatMul
      (ApplyMaskAndSoftmax E
        (BatchMatMul q1 false k1 true ((1 : α) / E.sqrt (hs : α))
          (m1.att_score.reshape [B, P.num_attention_heads, S, S] dc) 0)
        m1.attention_mask 1)
      false v1 false 1 (m1.context_layer.reshape [B, P.num_attention_heads, S, hs] dc) 0).shape =
      [B, nh, S, hs] := by
    simp [BatchMatMul, Tensor.reshape, hnh]
  have hcl2s : (BatchMatMul
      (ApplyMaskAndSoftmax E
        (BatchMatMul q2 false k2 true ((1 : α) / E.sqrt (hs : α))
          (m2.att_score.reshape [B, P.num_attention_heads, S, S] dc) 0)
        m2.attention_mask 1)
      false v2 false 1 (m2.context_layer.reshape [B, P.num_attention_heads, S, hs] dc) 0).shape =
      [B, nh, S, hs] := by
    simp [BatchMatMul, Tensor.reshape, hnh]
  have h4 : EqBelow (B * S * (nh * hs))
      (TransposeForScore (m1.self_attr_out.reshape [B, S, P.num_attention_heads * hs] dc)
        (BatchMatMul
          (ApplyMaskAndSoftmax E
            (BatchMatMul q1 false k1 true ((1 : α) / E.sqrt (hs : α))
              (m1.att_score.reshape [B, P.num_attention_heads, S, S] dc) 0)
            m1.attention_mask 1)
          false v1 false 1 (m1.context_layer.reshape [B, P.num_attention_heads, S, hs] dc) 0))
      (TransposeForScore (m2.self_attr_out.reshape [B, S, P.num_attention_heads * hs] dc)
        (BatchMatMul
          (ApplyMaskAndSoftmax E
            (BatchMatMul q2 false k2 true ((1 : α) / E.sqrt (hs : α))
              (m2.att_score.reshape [B, P.num_attention_heads, S, S] dc) 0)
            m2.attention_mask 1)
          false v2 false 1 (m2.context_layer.reshape [B, P.num_attention_heads, S, hs] dc) 0)) :=
    tfs_congr _ _ _ _ hS hhs0 hnh0 hcl1s hcl2s h3
  have hsao1s : (TransposeForScore (m1.self_attr_out.reshape [B, S, P.num_attention_heads * hs] dc)
      (BatchMatMul
        (ApplyMaskAndSoftmax E
          (BatchMatMul q1 false k1 true ((1 : α) / E.sqrt (hs : α))
            (m1.att_score.reshape [B, P.num_attention_heads, S, S] dc) 0)
          m1.attention_mask 1)
        false v1 false 1 (m1.context_layer.reshape [B, P.num_attention_heads, S, hs] dc) 0)).shape =
      [B, S, nh * hs] := by
    simp [TransposeForScore, Tensor.reshape, hnh]
  have hsao2s : (TransposeForScore (m2.self_attr_out.reshape [B, S, P.num_attention_heads * hs] dc)
      (BatchMatMul
        (ApplyMaskAndSoftmax E
          (BatchMatMul q2 false k2 true ((1 : α) / E.sqrt (hs : α))
            (m2.att_score.reshape [B, P.num_attention_heads, S, S] dc) 0)
          m2.attention_mask 1)
        false v2 false 1 (m2.context_layer.reshape [B, P.num_attention_heads, S, hs] dc) 0)).shape =
      [B, S, nh * hs] := by
    simp [TransposeForScore, Tensor.reshape, hnh]
  have h5 : EqBelow (B * S * H)
      (MatMul
        (TransposeForScore (m1.self_attr_out.reshape [B, S, P.num_attention_heads * hs] dc)
          (BatchMatMul
            (ApplyMaskAndSoftmax E
              (BatchMatMul q1 false k1 true ((1 : α) / E.sqrt (hs : α))
                (m1.att_score.reshape [B, P.num_attention_heads, S, S] dc) 0)
              m1.attention_mask 1)
            false v1 false 1 (m1.context_layer.reshape [B, P.num_attention_heads, S, hs] dc) 0))
        false P.dense_weight false 1 (m1.output.reshape [B, S, H] dc) 0)
      (MatMul
        (TransposeForScore (m2.self_attr_out.reshape [B, S, P.num_attention_heads * hs] dc)
          (BatchMatMul
            (ApplyMaskAndSoftmax E
              (BatchMatMul q2 false k2 true ((1 : α) / E.sqrt (hs : α))
                (m2.att_score.reshape [B, P.num_attention_heads, S, S] dc) 0)
              m2.attention_mask 1)
            false v2 false 1 (m2.context_layer.reshape [B, P.num_attention_heads, S, hs] dc) 0))
        false P.dense_weight false 1 (m2.output.reshape [B, S, H] dc) 0) :=
    dense_congr P _ _ _ _ hH0 hH hsao1s hsao2s hdw h4
  intro f hf
  cases post_add with
  | false =>
    show (AddBias P.dense_bias
        (MatMul
          (TransposeForScore (m1.self_attr_out.reshape [B, S, P.num_attention_heads * hs] dc)
            (BatchMatMul
              (ApplyMaskAndSoftmax E
                (BatchMatMul q1 false k1 true ((1 : α) / E.sqrt (hs : α))
                  (m1.att_score.reshape [B, P.num_attention_heads, S, S] dc) 0)
                m1.attention_mask 1)
              false v1 false 1
              (m1.context_layer.reshape [B, P.num_attention_heads, S, hs] dc) 0))
          false P.dense_weight false 1 (m1.output.reshape [B, S, H] dc) 0)).data f =
      (AddBias P.dense_bias
        (MatMul
          (TransposeForScore (m2.self_attr_out.reshape [B, S, P.num_attention_heads * hs] dc)
            (BatchMatMul
              (ApplyMaskAndSoftmax E
                (BatchMatMul q2 false k2 true ((1 : α) / E.sqrt (hs : α))
                  (m2.att_score.reshape [B, P.num_attention_heads, S, S] dc) 0)
                m2.attention_mask 1)
              false v2 false 1
              (m2.context_layer.reshape [B, P.num_attention_heads, S, hs] dc) 0))
          false P.dense_weight false 1 (m2.output.reshape [B, S, H] dc) 0)).data f
    simp only [AddBias]
    rw [h5 f hf]
    rfl
  | true =>
    show (AddInputBias
        (MatMul
          (TransposeForScore (m1.self_attr_out.reshape [B, S, P.num_attention_heads * hs] dc)
            (BatchMatMul
              (ApplyMaskAndSoftmax E
                (BatchMatMul q1 false k1 true ((1 : α) / E.sqrt (hs : α))
                  (m1.att_score.reshape [B, P.num_attention_heads, S, S] dc) 0)
                m1.attention_mask 1)
              false v1 false 1
              (m1.context_layer.reshape [B, P.num_attention_heads, S, hs] dc) 0))
          false P.dense_weight false 1 (m1.output.reshape [B, S, H] dc) 0)
        m1.query_tensor P.dense_bias
        (MatMul
          (TransposeForScore (m1.self_attr_out.reshape [B, S, P.num_attention_heads * hs] dc)
            (BatchMatMul
              (ApplyMaskAndSoftmax E
                (BatchMatMul q1 false k1 true ((1 : α) / E.sqrt (hs : α))
                  (m1.att_score.reshape [B, P.num_attention_heads, S, S] dc) 0)
                m1.attention_mask 1)
              false v1 false 1
              (m1.context_layer.reshape [B, P.num_attention_heads, S, hs] dc) 0))
          false P.dense_weight false 1 (m1.output.reshape [B, S, H] dc) 0)).data f =
      (AddInputBias
        (MatMul
          (TransposeForScore (m2.self_attr_out.reshape [B, S, P.num_attention_heads * hs] dc)
            (BatchMatMul
              (ApplyMaskAndSoftmax E
                (BatchMatMul q2 false k2 true ((1 : α) / E.sqrt (hs : α))
                  (m2.att_score.reshape [B, P.num_attention_heads, S, S] dc) 0)
                m2.attention_mask 1)
              false v2 false 1
              (m2.context_layer.reshape [B, P.num_attention_heads, S, hs] dc) 0))
          false P.dense_weight false 1 (m2.output.reshape [B, S, H] dc) 0)
        m2.query_tensor P.dense_bias
        (MatMul
          (TransposeForScore (m2.self_attr_out.reshape [B, S, P.num_attention_heads * hs] dc)
            (BatchMatMul
              (ApplyMaskAndSoftmax E
                (BatchMatMul q2 false k2 true ((1 : α) / E.sqrt (hs : α))
                  (m2.att_score.reshape [B, P.num_attention_heads, S, S] dc) 0)
                m2.attention_mask 1)
              false v2 false 1
              (m2.context_layer.reshape [B, P.num_attention_heads, S, hs] dc) 0))
          false P.dense_weight false 1 (m2.output.reshape [B, S, H] dc) 0)).data f
    simp only [AddInputBias]
    rw [h5 f hf, hquery]
    rfl

theorem contextBranch_q_shape {α : Type} [Field α] (E : ExtFns α) (P : MHAParams α)
    (batch_size query_seq_length key_seq_length hidden_size size_per_head : Nat)
    (devctx : DevCtx) (pre_layernorm : Bool) (m : Mem α) :
    (contextBranch E P batch_size query_seq_length key_seq_length hidden_size
      size_per_head devctx pre_layernorm m).2.1.shape =
      [batch_size, P.num_attention_heads, query_seq_length, size_per_head] := by
  cases pre_layernorm <;> rfl

theorem contextBranch_k_shape {α : Type} [Field α] (E : ExtFns α) (P : MHAParams α)
    (batch_size query_seq_length key_seq_length hidden_size size_per_head : Nat)
    (devctx : DevCtx) (pre_layernorm : Bool) (m : Mem α) :
    (contextBranch E P batch_size query_seq_length key_seq_length hidden_size
      size_per_head devctx pre_layernorm m).2.2.1.shape =
      [batch_size, P.num_attention_heads, key_seq_length, size_per_head] := by
  cases pre_layernorm <;> rfl

theorem contextBranch_v_shape {α : Type} [Field α] (E : ExtFns α) (P : MHAParams α)
    (batch_size query_seq_length key_seq_length hidden_size size_per_head : Nat)
    (devctx : DevCtx) (pre_layernorm : Bool) (m : Mem α) :
    (contextBranch E P batch_size query_seq_length key_seq_length hidden_size
      size_per_head devctx pre_layernorm m).2.2.2.shape =
      [batch_size, P.num_attention_heads, key_seq_length, size_per_head] := by
  cases pre_layernorm <;> rfl

theorem selfBranch_q_shape {α : Type} [Field α] (E : ExtFns α) (P : MHAParams α)
    (batch_size query_seq_length hidden_size size_per_head : Nat)
    (devctx : DevCtx) (pre_layernorm : Bool) (m : Mem α) :
    (selfBranch E P batch_size query_seq_length hidden_size
      size_per_head devctx pre_layernorm m).2.1.shape =
      [batch_size, P.num_attention_heads, query_seq_length, size_per_head] := by
  cases pre_layernorm <;> rfl

theorem selfBranch_k_shape {α : Type} [Field α] (E : ExtFns α) (P : MHAParams α)
    (batch_size query_seq_length hidden_size size_per_head : Nat)
    (devctx : DevCtx) (pre_layernorm : Bool) (m : Mem α) :
    (selfBranch E P batch_size query_seq_length hidden_size
      size_per_head devctx pre_layernorm m).2.2.1.shape =
      [batch_size, P.num_attention_heads, query_seq_length, size_per_head] := by
  cases pre_layernorm <;> rfl

theorem selfBranch_v_shape {α : Type} [Field α] (E : ExtFns α) (P : MHAParams α)
    (batch_size query_seq_length hidden_size size_per_head : Nat)
    (devctx : DevCtx) (pre_layernorm : Bool) (m : Mem α) :
    (selfBranch E P batch_size query_seq_length hidden_size
      size_per_head devctx pre_layernorm m).2.2.2.shape =
      [batch_size, P.num_attention_heads, query_seq_length, size_per_head] := by
  cases pre_layernorm <;> rfl

theorem contextBranch_mask {α : Type} [Field α] (E : ExtFns α) (P : MHAParams α)
    (batch_size query_seq_length key_seq_length hidden_size size_per_head : Nat)
    (devctx : DevCtx) (pre_layernorm : Bool) (m : Mem α) :
    (contextBranch E P batch_size query_seq_length key_seq_length hidden_size
      size_per_head devctx pre_layernorm m).1.attention_mask = m.attention_mask := by
  cases pre_layernorm <;> rfl

theorem selfBranch_mask {α : Type} [Field α] (E : ExtFns α) (P : MHAParams α)
    (batch_size query_seq_length hidden_size size_per_head : Nat)
    (devctx : DevCtx) (pre_layernorm : Bool) (m : Mem α) :
    (selfBranch E P batch_size query_seq_length hidden_size
      size_per_head devctx pre_layernorm m).1.attention_mask = m.attention_mask := by
  cases pre_layernorm <;> rfl

/-- Claim C8 (amended): with key = value = query (not merely query-shaped
value), preLayerNorm off, matching sequence lengths and a fused QKV bundle
that agrees column-block-wise with the separate query/key/value weights and
biases, the context variant and the self variant both return normally and
produce outputs of equal shape whose entries agree on the whole
[batch, querySeqLen, hidden] range, for every choice of the external
sqrt/softmax/layer-norm functions. -/
theorem c8_amended_equivalence {α : Type} [Field α] (E : ExtFns α) (P : MHAParams α)
    (post_add : Bool) (m : Mem α) (B S H nh hs : Nat)
    (hq : m.query_tensor.shape = [B, S, H])
    (hk : m.key_tensor = m.query_tensor) (hv : m.value_tensor = m.query_tensor)
    (hdev : is_same_device_ctx m.key_tensor.dev m.attention_mask.dev = true)
    (hnh : P.num_attention_heads = nh) (hH : H = nh * hs)
    (hB : 0 < B) (hS : 0 < S) (hnh0 : 0 < nh) (hhs0 : 0 < hs)
    (hqw : P.q_weight.shape = [H, H]) (hkw : P.k_weight.shape = [H, H])
    (hvw : P.v_weight.shape = [H, H]) (hqkvw : P.qkv_weight.shape = [H, 3 * H])
    (hdw : P.dense_weight.shape = [H, H])
    (hWq : ∀ r c, c < H → P.qkv_weight.data (r * (3 * H) + c) = P.q_weight.data (r * H + c))
    (hWk : ∀ r c, c < H →
      P.qkv_weight.data (r * (3 * H) + (H + c)) = P.k_weight.data (r * H + c))
    (hWv : ∀ r c, c < H →
      P.qkv_weight.data (r * (3 * H) + (2 * H + c)) = P.v_weight.data (r * H + c))
    (hbq : ∀ c, c < H → P.qkv_bias.data c = P.q_bias.data c)
    (hbk : ∀ c, c < H → P.qkv_bias.data (H + c) = P.k_bias.data c)
    (hbv : ∀ c, c < H → P.qkv_bias.data (2 * H + c) = P.v_bias.data c) :
    (multiHeadedAttention E P "context" false post_add m).2 = none ∧
      (multiHeadedAttention E P "self" false post_add m).2 = none ∧
      (multiHeadedAttention E P "context" false post_add m).1.output.shape =
        (multiHeadedAttention E P "self" false post_add m).1.output.shape ∧
      EqBelow (B * S * H)
        (multiHeadedAttention E P "context" false post_add m).1.output
        (multiHeadedAttention E P "self" false post_add m).1.output := by
  have hdev2 : is_same_device_ctx m.query_tensor.dev m.attention_mask.dev = true := by
    rw [← hk]; exact hdev
  have hval : validOperands m = true := by
    simp [validOperands, hdev2, hk, hv, Tensor.n_dim, hq]
  rw [run_context_eq E P false post_add m hval, run_self_eq E P false post_add m hval]
  refine ⟨rfl, rfl,
    (runContext_output_shape E P false post_add m).trans
      (runSelf_output_shape E P false post_add m).symm, ?_⟩
  have hd0 : m.query_tensor.dim 0 = B := by simp [Tensor.dim, hq]
  have hd1 : m.query_tensor.dim 1 = S := by simp [Tensor.dim, hq]
  have hd2 : m.query_tensor.dim 2 = H := by simp [Tensor.dim, hq]
  have hk1 : m.key_tensor.dim 1 = S := by simp [hk, Tensor.dim, hq]
  have hsph : m.query_tensor.dim 2 / P.num_attention_heads = hs := by
    rw [hd2, hnh, hH]
    exact Nat.mul_div_cancel_left hs hnh0
  have hsph2 : H / P.num_attention_heads = hs := by
    rw [hnh, hH]
    exact Nat.mul_div_cancel_left hs hnh0
  simp only [runContext, runSelf, hd0, hd1, hd2, hk1, hsph, hsph2]
  rcases hcb : contextBranch E P B S S H hs m.query_tensor.dev false
      { m with trace := ([] : List (KCall α)) } with ⟨mc, qc, kc, vc⟩
  rcases hsb : selfBranch E P B S H hs m.query_tensor.dev false
      { m with trace := ([] : List (KCall α)) } with ⟨ms, qs, ks, vs⟩
  have hcq := congrArg (fun p => p.2.1) hcb
  have hck := congrArg (fun p => p.2.2.1) hcb
  have hcv := congrArg (fun p => p.2.2.2) hcb
  have hcm := congrArg (fun p => p.1) hcb
  have hsq := congrArg (fun p => p.2.1) hsb
  have hsk := congrArg (fun p => p.2.2.1) hsb
  have hsv := congrArg (fun p => p.2.2.2) hsb
  have hsm := congrArg (fun p => p.1) hsb
  simp only at hcq hck hcv hcm hsq hsk hsv hsm
  refine commonTail_EqBelow E P B S H nh hs m.query_tensor.dev post_add qc kc vc qs ks vs
    mc ms hnh hH hB hS hnh0 hhs0 hdw ?_ ?_ ?_ ?_ ?_ ?_ ?_ ?_ ?_ ?_ ?_
  · rw [← hcm, ← hsm, contextBranch_mask, selfBranch_mask]
  · rw [← hcm, ← hsm, contextBranch_query, selfBranch_query]
  · rw [← hcq, contextBranch_q_shape, hnh]
  · rw [← hsq, selfBranch_q_shape, hnh]
  · rw [← hck, contextBranch_k_shape, hnh]
  · rw [← hsk, selfBranch_k_shape, hnh]
  · rw [← hcv, contextBranch_v_shape, hnh]
  · rw [← hsv, selfBranch_v_shape, hnh]
  · rw [← hcq, ← hsq]
    exact branch_q_eq E P B S H nh hs m.query_tensor.dev
      { m with trace := ([] : List (KCall α)) } hq hnh hH hB hS hnh0 hhs0 hqw hqkvw hWq hbq
  · rw [← hck, ← hsk]
    exact branch_k_eq E P B S H nh hs m.query_tensor.dev
      { m with trace := ([] : List (KCall α)) } hq hk hnh hH hB hS hnh0 hhs0 hkw hqkvw hWk hbk
  · rw [← hcv, ← hsv]
    exact branch_v_eq E P B S H nh hs m.query_tensor.dev
      { m with trace := ([] : List (KCall α)) } hq hv hnh hH hB hS hnh0 hhs0 hvw hqkvw hWv hbv

/-- Claim C8 counterexample: with key equal to the query, the value tensor
merely query-shaped (but holding different numbers), equal sequence lengths
and a fused QKV bundle that agrees with the separate weights, the context
variant and the self variant both succeed yet produce different outputs:
the context branch projects the value tensor through the value weight while
the self branch projects the query through the fused weight. -/
theorem c8_counterexample_value_not_query :
    (mkMem tOnes tTwos tOnes mask0).key_tensor =
        (mkMem tOnes tTwos tOnes mask0).query_tensor ∧
      (mkMem tOnes tTwos tOnes mask0).value_tensor.shape =
        (mkMem tOnes tTwos tOnes mask0).query_tensor.shape ∧
      (multiHeadedAttention E0 P0 "context" false false
        (mkMem tOnes tTwos tOnes mask0)).2 = none ∧
      (multiHeadedAttention E0 P0 "self" false false
        (mkMem tOnes tTwos tOnes mask0)).2 = none ∧
      (multiHeadedAttention E0 P0 "context" false false
          (mkMem tOnes tTwos tOnes mask0)).1.output.data 0 ≠
        (multiHeadedAttention E0 P0 "self" false false
          (mkMem tOnes tTwos tOnes mask0)).1.output.data 0 :=
  ⟨rfl, rfl, rfl, rfl, by decide⟩

theorem c8_amended_equivalence_witness :
    (multiHeadedAttention E0 P0 "context" false false m0).2 = none ∧
      (multiHeadedAttention E0 P0 "self" false false m0).2 = none ∧
      (multiHeadedAttention E0 P0 "context" false false m0).1.output.shape =
        (multiHeadedAttention E0 P0 "self" false false m0).1.output.shape ∧
      EqBelow (1 * 1 * 1)
        (multiHeadedAttention E0 P0 "context" false false m0).1.output
        (multiHeadedAttention E0 P0 "self" false false m0).1.output :=
  c8_amended_equivalence E0 P0 false m0 1 1 1 1 1 rfl rfl rfl rfl rfl rfl
    (by decide) (by decide) (by decide) (by decide) rfl rfl rfl rfl rfl
    (fun r c hc => rfl) (fun r c hc => rfl) (fun r c hc => rfl)
    (fun c hc => rfl) (fun c hc => rfl) (fun c hc => rfl)
